import Mathlib

/-!
# CIJE weather station: a verification development

Shallow embedding of `src/CijeWeatherStation.h` and `src/CijeWeatherStation.cpp`.

Modelling conventions.

* C++ `float` values are modelled by `Flt`: rationals extended with the
  IEEE-754 special values NaN, +infinity and -infinity; the two signed zeros
  are identified. `Flt.mul`, `Flt.div`, `Flt.add` and `Flt.sub` are the exact
  operations with the IEEE-754 rules for the special values; `Flt.round32` and
  `Flt.round64` round an exact result to binary32 and binary64 (round to
  nearest, ties to even, gradual underflow, overflow to infinity).
* The wind-speed computation of `readWindSpeed` rounds every operation as the
  code does: the first statement is evaluated in double precision and stored
  in a `float`, the second in single precision. The two temperature
  conversions are kept in exact arithmetic, the arithmetic that the spec's
  conversion property names.
* `unsigned long` is the 32-bit unsigned type of the ESP32 target; subtraction
  wraps modulo `2^32`.
* `int` is the 32-bit signed type of the ESP32 target. Signed overflow is
  undefined behaviour in C++; the build wraps in two's complement, and the
  increment of the failure counter is modelled so (`intIncrement`).
* Collaborators (WiFi stack, DHT driver, ADC, HTTP client, millisecond clock)
  are external: the values they return during a call are supplied by an
  environment record, and the calls the firmware issues are recorded in an
  event log carried by the station state.
-/

namespace CijeWeather

/-! ## Floating-point values -/

/-- Values of the C++ `float` type: NaN, the two infinities, and finite values
taken as exact rationals. -/
inductive Flt where
  | nan
  | negInf
  | fin (q : ℚ)
  | posInf
  deriving DecidableEq

namespace Flt

/-- The C `isnan` test. -/
def isnan : Flt → Bool
  | nan => true
  | _ => false

/-- The exact value of an `int`; the conversion `(float)adcValue` is
`Flt.round32 (Flt.ofInt adcValue)`. -/
def ofInt (n : Int) : Flt := fin (n : ℚ)

/-- Infinity of the given sign (`true` is positive). -/
def inf (positive : Bool) : Flt := if positive then posInf else negInf

/-- Product of an infinity (of sign `positive`) with a finite value. -/
def infMul (positive : Bool) (q : ℚ) : Flt :=
  if q = 0 then nan else if 0 < q then inf positive else inf (!positive)

/-- IEEE-754 multiplication on exact values. -/
def mul : Flt → Flt → Flt
  | nan, _ => nan
  | negInf, nan => nan
  | negInf, negInf => posInf
  | negInf, fin b => infMul false b
  | negInf, posInf => negInf
  | fin _, nan => nan
  | fin a, negInf => infMul false a
  | fin a, fin b => fin (a * b)
  | fin a, posInf => infMul true a
  | posInf, nan => nan
  | posInf, negInf => negInf
  | posInf, fin b => infMul true b
  | posInf, posInf => posInf

/-- Quotient of an infinity (of sign `positive`) by a finite value; a zero
divisor counts as positive. -/
def infDiv (positive : Bool) (q : ℚ) : Flt :=
  if 0 ≤ q then inf positive else inf (!positive)

/-- IEEE-754 division on exact values: a finite non-zero value divided by zero
is an infinity, and `0/0` and `inf/inf` are NaN. -/
def div : Flt → Flt → Flt
  | nan, _ => nan
  | negInf, nan => nan
  | negInf, negInf => nan
  | negInf, fin b => infDiv false b
  | negInf, posInf => nan
  | fin _, nan => nan
  | fin _, negInf => fin 0
  | fin a, fin b =>
      if b = 0 then (if a = 0 then nan else if 0 < a then posInf else negInf)
      else fin (a / b)
  | fin _, posInf => fin 0
  | posInf, nan => nan
  | posInf, negInf => nan
  | posInf, fin b => infDiv true b
  | posInf, posInf => nan

/-- IEEE-754 addition on exact values. -/
def add : Flt → Flt → Flt
  | nan, _ => nan
  | negInf, nan => nan
  | negInf, negInf => negInf
  | negInf, fin _ => negInf
  | negInf, posInf => nan
  | fin _, nan => nan
  | fin _, negInf => negInf
  | fin a, fin b => fin (a + b)
  | fin _, posInf => posInf
  | posInf, nan => nan
  | posInf, negInf => nan
  | posInf, fin _ => posInf
  | posInf, posInf => posInf

/-- IEEE-754 subtraction on exact values. -/
def sub : Flt → Flt → Flt
  | nan, _ => nan
  | negInf, nan => nan
  | negInf, negInf => nan
  | negInf, fin _ => negInf
  | negInf, posInf => negInf
  | fin _, nan => nan
  | fin _, negInf => posInf
  | fin a, fin b => fin (a - b)
  | fin _, posInf => negInf
  | posInf, nan => nan
  | posInf, negInf => posInf
  | posInf, fin _ => posInf
  | posInf, posInf => nan

/-- The comparison `x <= y` of C: false whenever an operand is NaN. -/
def le : Flt → Flt → Bool
  | nan, _ => false
  | negInf, nan => false
  | negInf, _ => true
  | fin _, nan => false
  | fin _, negInf => false
  | fin a, fin b => decide (a ≤ b)
  | fin _, posInf => true
  | posInf, posInf => true
  | posInf, _ => false

/-- The comparison `x >= y` of C. -/
def ge (x y : Flt) : Bool := le y x

/-- The comparison `x < y` of C: false whenever an operand is NaN. -/
def lt : Flt → Flt → Bool
  | nan, _ => false
  | negInf, nan => false
  | negInf, negInf => false
  | negInf, _ => true
  | fin _, nan => false
  | fin _, negInf => false
  | fin a, fin b => decide (a < b)
  | fin _, posInf => true
  | posInf, _ => false

end Flt

/-! ## Rounding (IEEE-754 round to nearest, ties to even) -/

/-- Round to the nearest integer, ties to even. -/
def roundNearestEven (x : ℚ) : ℤ :=
  if x - ⌊x⌋ < 1 / 2 then ⌊x⌋
  else if 1 / 2 < x - ⌊x⌋ then ⌊x⌋ + 1
  else if ⌊x⌋ % 2 = 0 then ⌊x⌋ else ⌊x⌋ + 1

/-- The exponent of the quantum (unit in the last place) of `x` in a binary
format of precision `p` and least normal exponent `emin`: the exponent of `x`,
clamped below at `emin` (subnormal range), minus `p - 1`. -/
def Flt.quantumExp (p emin : ℤ) (x : ℚ) : ℤ := max (Int.log 2 |x|) emin - (p - 1)

/-- Rounding of an exact value to the binary format of precision `p` and
normal exponent range `emin..emax`: the nearest multiple of the quantum, ties
to even, which is an infinity when it reaches `2^(emax+1)`. -/
def Flt.roundFormat (p emin emax : ℤ) (x : ℚ) : Flt :=
  if x = 0 then .fin 0
  else if (2 : ℚ) ^ (emax + 1) ≤
      |(roundNearestEven (x / 2 ^ Flt.quantumExp p emin x) : ℚ) * 2 ^ Flt.quantumExp p emin x| then
    (if 0 < x then .posInf else .negInf)
  else .fin ((roundNearestEven (x / 2 ^ Flt.quantumExp p emin x) : ℚ) * 2 ^ Flt.quantumExp p emin x)

/-- Rounding to binary32, the format of `float`. -/
def Flt.round32 : Flt → Flt
  | .fin q => Flt.roundFormat 24 (-126) 127 q
  | x => x

/-- Rounding to binary64, the format of `double`. -/
def Flt.round64 : Flt → Flt
  | .fin q => Flt.roundFormat 53 (-1022) 1023 q
  | x => x

/-- Multiplication of two `float` values in single precision. -/
def Flt.mul32 (a b : Flt) : Flt := Flt.round32 (Flt.mul a b)

/-- Division of two `float` values in single precision. -/
def Flt.div32 (a b : Flt) : Flt := Flt.round32 (Flt.div a b)

/-- Multiplication in double precision. -/
def Flt.mul64 (a b : Flt) : Flt := Flt.round64 (Flt.mul a b)

/-- Division in double precision. -/
def Flt.div64 (a b : Flt) : Flt := Flt.round64 (Flt.div a b)

/-! ## `namespace CijeWeatherUtils` -/

/-- `celsiusToFahrenheit`: `(celsius * 9.0 / 5.0) + 32.0`. -/
def celsiusToFahrenheit (celsius : Flt) : Flt :=
  Flt.add (Flt.div (Flt.mul celsius (.fin 9)) (.fin 5)) (.fin 32)

/-- `fahrenheitToCelsius`: `(fahrenheit - 32.0) * 5.0 / 9.0`. -/
def fahrenheitToCelsius (fahrenheit : Flt) : Flt :=
  Flt.div (Flt.mul (Flt.sub fahrenheit (.fin 32)) (.fin 5)) (.fin 9)

/-- `isValidTemperature`: `temp >= -40.0 && temp <= 140.0`. -/
def isValidTemperature (temp : Flt) : Bool :=
  Flt.ge temp (.fin (-40)) && Flt.le temp (.fin 140)

/-- `isValidHumidity`: `humidity >= 0.0 && humidity <= 100.0`. -/
def isValidHumidity (humidity : Flt) : Bool :=
  Flt.ge humidity (.fin 0) && Flt.le humidity (.fin 100)

/-- `isValidWindSpeed`: `windSpeed >= 0.0 && windSpeed <= 200.0`. -/
def isValidWindSpeed (windSpeed : Flt) : Bool :=
  Flt.ge windSpeed (.fin 0) && Flt.le windSpeed (.fin 200)

/-! ## Data model (`CijeWeatherStation.h`) -/

/-- Modulus of the 32-bit `unsigned long` type. -/
def ULONG_MOD : Nat := 2 ^ 32

/-- Subtraction of two `unsigned long` values: wraps modulo `2^32`. -/
def ulongSub (a b : Nat) : Nat :=
  (a % ULONG_MOD + ULONG_MOD - b % ULONG_MOD) % ULONG_MOD

/-- Smallest value of the 32-bit `int` type. -/
def INT_MIN : Int := -2147483648

/-- Largest value of the 32-bit `int` type. -/
def INT_MAX : Int := 2147483647

/-- Reduction of an integer to the 32-bit two's-complement range. -/
def int32Wrap (n : Int) : Int := (n + 2 ^ 31) % 2 ^ 32 - 2 ^ 31

/-- The value of an `int` after `++`: the successor, wrapping from `INT_MAX`
to `INT_MIN`. -/
def intIncrement (counter : Int) : Int := int32Wrap (counter + 1)

def DEFAULT_DHT_PIN : Int := 32
def DEFAULT_STATUS_LED_PIN : Int := 2
def DEFAULT_WIND_PIN : Int := 36
/-- The value of the DHT driver's `DHT22` type selector. -/
def DHT22 : Int := 22
def DEFAULT_DHT_TYPE : Int := DHT22
def DEFAULT_READING_INTERVAL : Nat := 3600000
def DEFAULT_WIFI_TIMEOUT : Nat := 30000
def DEFAULT_HTTP_TIMEOUT : Nat := 15000
def DEFAULT_API_URL : String := "https://v0-cije-weather-hub.vercel.app/api/weather/submit"

/-- `struct WeatherReading`. -/
structure WeatherReading where
  temperature : Flt
  humidity : Flt
  windSpeed : Flt
  isValid : Bool
  timestamp : Nat
  deriving DecidableEq

/-- `struct WeatherStationConfig`; a `const char*` that may be `nullptr` is an
`Option String`. -/
structure WeatherStationConfig where
  wifiSSID : Option String
  wifiPassword : Option String
  apiURL : String
  stationID : Int
  passkey : Option String
  dhtPin : Int
  statusLedPin : Int
  windPin : Int
  dhtType : Int
  readingInterval : Nat
  wifiTimeout : Nat
  httpTimeout : Nat
  windVoltageMax : Flt
  windSpeedMaxMPH : Flt
  deriving DecidableEq

/-- `enum WeatherStationStatus`. -/
inductive WeatherStationStatus where
  | WS_STATUS_INITIALIZING
  | WS_STATUS_WIFI_CONNECTING
  | WS_STATUS_WIFI_CONNECTED
  | WS_STATUS_WIFI_FAILED
  | WS_STATUS_SENSOR_ERROR
  | WS_STATUS_READING_SENSORS
  | WS_STATUS_SUBMITTING_DATA
  | WS_STATUS_SUBMIT_SUCCESS
  | WS_STATUS_SUBMIT_FAILED
  | WS_STATUS_IDLE
  deriving DecidableEq

open WeatherStationStatus

/-- The fields of the form-encoded body built by `submitReading`. -/
structure PostData where
  station_id : Int
  passkey : Option String
  temperature : Flt
  humidity : Flt
  wind_speed : Flt
  deriving DecidableEq

/-- Calls issued to the collaborators, in the order the firmware makes them. -/
inductive Event where
  | pinModeOutput (pin : Int)
  | digitalWrite (pin : Int) (level : Bool)
  | dhtBegin (pin type : Int)
  | dhtReadTemperature
  | dhtReadHumidity
  | adcSetup
  | analogRead (pin : Int)
  | wifiBegin (ssid password : Option String)
  | httpPost (url : String) (timeout : Nat) (body : PostData)
  | espRestart
  deriving DecidableEq

/-- The private members of `class CijeWeatherStation`, the two `static` locals
of `updateStatusLED`, and the log of collaborator calls made so far. -/
structure Station where
  config : WeatherStationConfig
  dht : Option (Int × Int)
  currentStatus : WeatherStationStatus
  lastReading : Nat
  lastStatusUpdate : Nat
  consecutiveFailures : Int
  initialized : Bool
  lastValidReading : WeatherReading
  lastBlink : Nat
  ledState : Bool
  log : List Event
  deriving DecidableEq

/-! ## Environments: what the collaborators return during one call -/

/-- Values met by one call of `readSensors`. The three `junk` fields are the
indeterminate contents of the local `WeatherReading reading;`, which is
declared without an initialiser. -/
structure SensorEnv where
  millis : Nat
  tempC : Flt
  humidity : Flt
  adcValue : Int
  junkTemperature : Flt
  junkHumidity : Flt
  junkWindSpeed : Flt

/-- Values met by one call of `forceReading`: the link state at the first
check, the outcome of the bounded reconnection wait, the sensor values, the
link state at the check inside `submitReading`, and the integer returned by
`http.POST`. -/
structure CycleEnv where
  wifiUp : Bool
  reconnectOk : Bool
  sensors : SensorEnv
  wifiUpAtSubmit : Bool
  httpResponseCode : Int

/-- Values met by one call of `loop`: the clock read at its start, the
environment of the cycle (used only when one runs), and the two clock reads
of `updateStatusLED`. -/
structure TickEnv where
  currentTime : Nat
  cycle : CycleEnv
  ledMillis : Nat
  ledMillisAfter : Nat

/-- Values met by one call of `begin`: the self-test temperature read of
`initializeHardware` and the outcome of the bounded WiFi wait. -/
structure BeginEnv where
  testTemp : Flt
  wifiOk : Bool

/-! ## Operations (`CijeWeatherStation.cpp`) -/

/-- Append a collaborator call to the log. -/
def Station.emit (s : Station) (e : Event) : Station :=
  { s with log := s.log ++ [e] }

/-- The constructor `CijeWeatherStation::CijeWeatherStation()`. -/
def construct : Station :=
  { config :=
      { wifiSSID := none
        wifiPassword := none
        apiURL := DEFAULT_API_URL
        stationID := 0
        passkey := none
        dhtPin := DEFAULT_DHT_PIN
        statusLedPin := DEFAULT_STATUS_LED_PIN
        windPin := DEFAULT_WIND_PIN
        dhtType := DEFAULT_DHT_TYPE
        readingInterval := DEFAULT_READING_INTERVAL
        wifiTimeout := DEFAULT_WIFI_TIMEOUT
        httpTimeout := DEFAULT_HTTP_TIMEOUT
        windVoltageMax := Flt.round32 (.fin (33 / 10))
        windSpeedMaxMPH := Flt.round32 (.fin (324 / 10)) }
    dht := none
    currentStatus := WS_STATUS_INITIALIZING
    lastReading := 0
    lastStatusUpdate := 0
    consecutiveFailures := 0
    initialized := false
    lastValidReading :=
      { temperature := .fin 0, humidity := .fin 0, windSpeed := .fin 0,
        isValid := false, timestamp := 0 }
    lastBlink := 0
    ledState := false
    log := [] }

def setWiFiCredentials (s : Station) (ssid password : Option String) : Station :=
  { s with config := { s.config with wifiSSID := ssid, wifiPassword := password } }

def setStationCredentials (s : Station) (stationID : Int) (passkey : Option String) :
    Station :=
  { s with config := { s.config with stationID := stationID, passkey := passkey } }

def setAPIURL (s : Station) (url : String) : Station :=
  { s with config := { s.config with apiURL := url } }

def setDHTPin (s : Station) (pin type : Int) : Station :=
  { s with config := { s.config with dhtPin := pin, dhtType := type } }

def setStatusLEDPin (s : Station) (pin : Int) : Station :=
  { s with config := { s.config with statusLedPin := pin } }

def setWindPin (s : Station) (pin : Int) : Station :=
  { s with config := { s.config with windPin := pin } }

def setReadingInterval (s : Station) (interval : Nat) : Station :=
  { s with config := { s.config with readingInterval := interval } }

/-- `setWindCalibration`: stores both values, whatever they are. -/
def setWindCalibration (s : Station) (voltageMax speedMaxMPH : Flt) : Station :=
  { s with config :=
      { s.config with windVoltageMax := voltageMax, windSpeedMaxMPH := speedMaxMPH } }

def setTimeouts (s : Station) (wifiTimeout httpTimeout : Nat) : Station :=
  { s with config := { s.config with wifiTimeout := wifiTimeout, httpTimeout := httpTimeout } }

/-- `initializeHardware`: LED pin set-up, DHT driver start, self-test read
(`testTemp`), ADC set-up. -/
def initializeHardware (s : Station) (testTemp : Flt) : Station × Bool :=
  let s1 := (s.emit (.pinModeOutput s.config.statusLedPin)).emit
    (.digitalWrite s.config.statusLedPin false)
  let s2 := { s1 with dht := some (s.config.dhtPin, s.config.dhtType) }
  let s3 := (s2.emit (.dhtBegin s.config.dhtPin s.config.dhtType)).emit .dhtReadTemperature
  if testTemp.isnan then (s3, false)
  else (s3.emit .adcSetup, true)

/-- `connectToWiFi`: starts the association and waits, bounded by
`config.wifiTimeout`; `connected` is the link state read after the wait. -/
def connectToWiFi (s : Station) (connected : Bool) : Station × Bool :=
  let s1 := s.emit (.wifiBegin s.config.wifiSSID s.config.wifiPassword)
  if connected then ({ s1 with currentStatus := WS_STATUS_WIFI_CONNECTED }, true)
  else ({ s1 with currentStatus := WS_STATUS_WIFI_FAILED }, false)

/-- The arithmetic of `readWindSpeed` on the sampled count.
`float voltage = (float)adcValue / 4095.0 * config.windVoltageMax;` converts
the count to `float`, divides and multiplies in double precision (`4095.0` is
a `double`) and stores the product in a `float`;
`voltage * (config.windSpeedMaxMPH / config.windVoltageMax)` is evaluated in
single precision. -/
def windSpeedOf (config : WeatherStationConfig) (adcValue : Int) : Flt :=
  let voltage := Flt.round32
    (Flt.mul64 (Flt.div64 (Flt.round32 (Flt.ofInt adcValue)) (.fin 4095))
      config.windVoltageMax)
  Flt.mul32 voltage (Flt.div32 config.windSpeedMaxMPH config.windVoltageMax)

/-- `readWindSpeed`: one analog sample of the wind pin, scaled. -/
def readWindSpeed (s : Station) (adcValue : Int) : Station × Flt :=
  (s.emit (.analogRead s.config.windPin), windSpeedOf s.config adcValue)

/-- `readSensors`. -/
def readSensors (s : Station) (e : SensorEnv) : Station × WeatherReading :=
  let reading : WeatherReading :=
    { temperature := e.junkTemperature, humidity := e.junkHumidity,
      windSpeed := e.junkWindSpeed, isValid := false, timestamp := e.millis }
  let s1 := (s.emit .dhtReadTemperature).emit .dhtReadHumidity
  if e.tempC.isnan || e.humidity.isnan then (s1, reading)
  else
    let wind := readWindSpeed s1 e.adcValue
    let reading1 : WeatherReading :=
      { reading with
        temperature := celsiusToFahrenheit e.tempC
        humidity := e.humidity
        windSpeed := wind.2 }
    if isValidTemperature reading1.temperature && isValidHumidity reading1.humidity
        && isValidWindSpeed reading1.windSpeed then
      (wind.1, { reading1 with isValid := true })
    else (wind.1, reading1)

/-- `submitReading`: `wifiUp` is the link state at its first line and
`httpResponseCode` the value returned by `http.POST`. -/
def submitReading (s : Station) (reading : WeatherReading) (wifiUp : Bool)
    (httpResponseCode : Int) : Station × Bool :=
  if !wifiUp then (s, false)
  else
    let postData : PostData :=
      { station_id := s.config.stationID, passkey := s.config.passkey,
        temperature := reading.temperature, humidity := reading.humidity,
        wind_speed := reading.windSpeed }
    let s1 := s.emit (.httpPost s.config.apiURL s.config.httpTimeout postData)
    if httpResponseCode > 0 then
      (s1, httpResponseCode == 200 || httpResponseCode == 429)
    else (s1, false)

/-- `blinkLED`: `times` on/off pulses of the status LED. -/
def blinkLED (s : Station) : Nat → Station
  | 0 => s
  | times + 1 =>
      blinkLED ((s.emit (.digitalWrite s.config.statusLedPin true)).emit
        (.digitalWrite s.config.statusLedPin false)) times

/-- The blink period chosen by the `switch` of `updateStatusLED`. -/
def blinkInterval : WeatherStationStatus → Nat
  | WS_STATUS_WIFI_CONNECTING => 200
  | WS_STATUS_WIFI_CONNECTED => 2000
  | WS_STATUS_IDLE => 2000
  | WS_STATUS_WIFI_FAILED => 100
  | WS_STATUS_SENSOR_ERROR => 100
  | WS_STATUS_SUBMIT_FAILED => 100
  | _ => 1000

/-- `updateStatusLED`, with its two clock reads. -/
def updateStatusLED (s : Station) (millis millisAfter : Nat) : Station :=
  if ulongSub millis s.lastBlink > blinkInterval s.currentStatus then
    let s1 := { s with ledState := !s.ledState }
    { s1.emit (.digitalWrite s.config.statusLedPin s1.ledState) with
      lastBlink := millisAfter }
  else s

/-- `restart`: the platform restart primitive; it does not return. -/
def restart (s : Station) : Station := s.emit .espRestart

/-- `forceReading`: one reading cycle. -/
def forceReading (s : Station) (e : CycleEnv) : Station × Bool :=
  if !s.initialized then (s, false)
  else
    let s1 := { s with currentStatus := WS_STATUS_READING_SENSORS }
    let link : Station × Bool :=
      if !e.wifiUp then
        connectToWiFi { s1 with currentStatus := WS_STATUS_WIFI_CONNECTING } e.reconnectOk
      else (s1, true)
    if !link.2 then
      ({ link.1 with currentStatus := WS_STATUS_WIFI_FAILED,
                     consecutiveFailures := intIncrement link.1.consecutiveFailures }, false)
    else
      let read := readSensors link.1 e.sensors
      let reading := read.2
      if !reading.isValid then
        ({ read.1 with currentStatus := WS_STATUS_SENSOR_ERROR,
                       consecutiveFailures := intIncrement read.1.consecutiveFailures }, false)
      else
        let s4 := { read.1 with lastValidReading := reading,
                                currentStatus := WS_STATUS_SUBMITTING_DATA }
        let submit := submitReading s4 reading e.wifiUpAtSubmit e.httpResponseCode
        let success := submit.2
        let s6 :=
          if success then
            blinkLED { submit.1 with currentStatus := WS_STATUS_SUBMIT_SUCCESS,
                                     consecutiveFailures := 0 } 3
          else
            { submit.1 with currentStatus := WS_STATUS_SUBMIT_FAILED,
                            consecutiveFailures := intIncrement submit.1.consecutiveFailures }
        ({ s6 with currentStatus := WS_STATUS_IDLE }, success)

/-- `loop`: one periodic tick. The flag tells whether `restart()` was called. -/
def loop (s : Station) (e : TickEnv) : Station × Bool :=
  if !s.initialized then (s, false)
  else
    let s1 :=
      if ulongSub e.currentTime s.lastReading ≥ s.config.readingInterval then
        { (forceReading s e.cycle).1 with lastReading := e.currentTime }
      else s
    let s2 := updateStatusLED s1 e.ledMillis e.ledMillisAfter
    if s2.consecutiveFailures ≥ 5 then (restart s2, true)
    else (s2, false)

/-- `begin`: activation. -/
def begin (s : Station) (e : BeginEnv) : Station × Bool :=
  if s.config.wifiSSID.isNone || s.config.wifiPassword.isNone then (s, false)
  else if s.config.stationID == 0 || s.config.passkey.isNone then (s, false)
  else
    let hardware := initializeHardware s e.testTemp
    if !hardware.2 then (hardware.1, false)
    else
      let link :=
        connectToWiFi { hardware.1 with currentStatus := WS_STATUS_WIFI_CONNECTING } e.wifiOk
      if !link.2 then ({ link.1 with currentStatus := WS_STATUS_WIFI_FAILED }, false)
      else ({ link.1 with currentStatus := WS_STATUS_IDLE, initialized := true }, true)

/-- `testSensors`: one sensor read; returns the reading's validity flag. -/
def testSensors (s : Station) (e : SensorEnv) : Station × Bool :=
  let read := readSensors s e
  (read.1, read.2.isValid)

/-! ## Runs of the station -/

/-- The state after the device has restarted: the constructor runs again; the
log of collaborator calls is kept as history. -/
def reboot (s : Station) : Station := { construct with log := s.log }

/-- The public operations of `class CijeWeatherStation` that act on the
station, with their arguments and the environment each one meets. -/
inductive Call where
  | setWiFiCredentials (ssid password : Option String)
  | setStationCredentials (stationID : Int) (passkey : Option String)
  | setAPIURL (url : String)
  | setDHTPin (pin type : Int)
  | setStatusLEDPin (pin : Int)
  | setWindPin (pin : Int)
  | setReadingInterval (interval : Nat)
  | setWindCalibration (voltageMax speedMaxMPH : Flt)
  | setTimeouts (wifiTimeout httpTimeout : Nat)
  | begin (e : BeginEnv)
  | loop (e : TickEnv)
  | forceReading (e : CycleEnv)
  | testSensors (e : SensorEnv)
  | restart

/-- The station after one public call; a call that restarts the device leaves
the freshly constructed station. -/
def Call.run (s : Station) : Call → Station
  | .setWiFiCredentials ssid password => CijeWeather.setWiFiCredentials s ssid password
  | .setStationCredentials stationID passkey =>
      CijeWeather.setStationCredentials s stationID passkey
  | .setAPIURL url => CijeWeather.setAPIURL s url
  | .setDHTPin pin type => CijeWeather.setDHTPin s pin type
  | .setStatusLEDPin pin => CijeWeather.setStatusLEDPin s pin
  | .setWindPin pin => CijeWeather.setWindPin s pin
  | .setReadingInterval interval => CijeWeather.setReadingInterval s interval
  | .setWindCalibration voltageMax speedMaxMPH =>
      CijeWeather.setWindCalibration s voltageMax speedMaxMPH
  | .setTimeouts wifiTimeout httpTimeout => CijeWeather.setTimeouts s wifiTimeout httpTimeout
  | .begin e => (CijeWeather.begin s e).1
  | .loop e =>
      if (CijeWeather.loop s e).2 then reboot (CijeWeather.loop s e).1
      else (CijeWeather.loop s e).1
  | .forceReading e => (CijeWeather.forceReading s e).1
  | .testSensors e => (CijeWeather.testSensors s e).1
  | .restart => reboot (CijeWeather.restart s)

/-- The station after a sequence of public calls. -/
def runCalls (s : Station) (calls : List Call) : Station :=
  calls.foldl Call.run s

/-- A state is reachable when some sequence of public calls leads to it from
the constructed station. -/
def Reachable (s : Station) : Prop :=
  ∃ calls : List Call, runCalls construct calls = s

/-- The station driven by `loop()` ticks only: the state after each tick and
whether that tick called `restart()`. The restart is terminal, so the run
ends with the tick that restarts. -/
def tickTrace : Station → List TickEnv → List (Station × Bool)
  | _, [] => []
  | s, e :: es =>
      if (loop s e).2 then [loop s e]
      else loop s e :: tickTrace (loop s e).1 es

/-- The failure counter after each of a sequence of reading cycles. -/
def cycleCounters : Station → List CycleEnv → List Int
  | _, [] => []
  | s, e :: es =>
      (forceReading s e).1.consecutiveFailures :: cycleCounters (forceReading s e).1 es

/-- How a reading cycle on an activated station ends. -/
inductive CycleOutcome where
  | connectFailed
  | sensorInvalid
  | submitFailed
  | submitted
  deriving DecidableEq

/-- The outcome of the cycle that `forceReading` runs on `s` in environment
`e`: the reconnection fails (link down and `connectToWiFi` false), else
`readSensors` returns an invalid reading, else `submitReading` returns false,
else the reading is submitted. -/
def cycleOutcome (s : Station) (e : CycleEnv) : CycleOutcome :=
  if !e.wifiUp && !(connectToWiFi s e.reconnectOk).2 then .connectFailed
  else if !(readSensors s e.sensors).2.isValid then .sensorInvalid
  else if (submitReading s (readSensors s e.sensors).2 e.wifiUpAtSubmit
      e.httpResponseCode).2 then .submitted
  else .submitFailed

/-- The rest of a tick after the reading-cycle step: the status LED refresh
and the failure-counter check. -/
def finishTick (s : Station) (e : TickEnv) : Station × Bool :=
  if (updateStatusLED s e.ledMillis e.ledMillisAfter).consecutiveFailures ≥ 5 then
    (restart (updateStatusLED s e.ledMillis e.ledMillisAfter), true)
  else (updateStatusLED s e.ledMillis e.ledMillisAfter, false)

/-- The events of a log that belong to a reading cycle (sensor reads, the
analog sample, the reconnection, the POST). -/
def Event.isCycleEvent : Event → Bool
  | .dhtReadTemperature => true
  | .dhtReadHumidity => true
  | .analogRead _ => true
  | .wifiBegin _ _ => true
  | .httpPost _ _ _ => true
  | _ => false

/-- The `httpPost` events of a log. -/
def Event.isPost : Event → Bool
  | .httpPost _ _ _ => true
  | _ => false

/-- The reading that `readSensors` returns, as a function of the configuration
and the environment alone (it does not depend on the rest of the state). -/
def sensorReading (config : WeatherStationConfig) (e : SensorEnv) : WeatherReading :=
  (readSensors { construct with config := config } e).2

/-- The outcome of each of a sequence of reading cycles. -/
def cycleOutcomes : Station → List CycleEnv → List CycleOutcome
  | _, [] => []
  | s, e :: es => cycleOutcome s e :: cycleOutcomes (forceReading s e).1 es

/-- Whether a tick in environment `e` finds a reading due: the elapsed time
`currentTime - lastReading`, in wrapping unsigned arithmetic, has reached the
configured interval. -/
def readingDue (s : Station) (e : TickEnv) : Bool :=
  decide (ulongSub e.currentTime s.lastReading ≥ s.config.readingInterval)

/-- Whether every tick of a run finds a reading due and its cycle ends in an
invalid sensor reading. -/
def allDueSensorFailures : Station → List TickEnv → Bool
  | _, [] => true
  | s, e :: es =>
      readingDue s e && decide (cycleOutcome s e.cycle = .sensorInvalid)
        && allDueSensorFailures (loop s e).1 es

/-- Follows the spec's words: the counter "increments by exactly 1 on each
failing cycle outcome (connect, sensor, or submit failure); resets to exactly
0 on any successful submission". -/
def specNextCounter (counter : Int) : CycleOutcome → Int
  | .submitted => 0
  | _ => counter + 1

/-- Follows the spec's words: the counter sequence that the spec's rule gives
for a sequence of cycle outcomes, starting from `counter`. -/
def specCounters : Int → List CycleOutcome → List Int
  | _, [] => []
  | counter, o :: os => specNextCounter counter o :: specCounters (specNextCounter counter o) os

/-! ## Concrete inputs -/

/-- The sensor environment of the C4 counterexample: the DHT driver returns
NaN for the temperature, and the uninitialised fields of the local reading
happen to hold zeros. -/
def nanSensorEnv : SensorEnv :=
  { millis := 1000, tempC := .nan, humidity := .fin 50, adcValue := 0,
    junkTemperature := .fin 0, junkHumidity := .fin 0, junkWindSpeed := .fin 0 }

/-- A configured station: WiFi and station credentials set, defaults otherwise. -/
def configuredStation : Station :=
  setStationCredentials
    (setWiFiCredentials construct (some "school-wifi") (some "wifi-secret")) 7 (some "passkey")

/-- An activation in which the sensor self-test and the WiFi wait succeed. -/
def goodBeginEnv : BeginEnv := { testTemp := .fin 21, wifiOk := true }

/-- The activated initial state of `configuredStation`. -/
def activatedStation : Station := (begin configuredStation goodBeginEnv).1

/-- Sensors returning 20 degrees Celsius, 50 % humidity and a full-scale wind
sample. -/
def goodSensorEnv : SensorEnv :=
  { millis := 5000, tempC := .fin 20, humidity := .fin 50, adcValue := 4095,
    junkTemperature := .nan, junkHumidity := .nan, junkWindSpeed := .nan }

/-- A cycle whose submission is answered with HTTP 500. -/
def submitFailCycle : CycleEnv :=
  { wifiUp := true, reconnectOk := true, sensors := goodSensorEnv,
    wifiUpAtSubmit := true, httpResponseCode := 500 }

/-- A cycle whose submission is answered with HTTP 200. -/
def submitOkCycle : CycleEnv :=
  { wifiUp := true, reconnectOk := true, sensors := goodSensorEnv,
    wifiUpAtSubmit := true, httpResponseCode := 200 }

/-- A cycle in which the DHT driver returns NaN. -/
def sensorFailCycle : CycleEnv :=
  { wifiUp := true, reconnectOk := true, sensors := nanSensorEnv,
    wifiUpAtSubmit := true, httpResponseCode := 200 }

/-- An activated station whose failure counter has reached `INT_MAX`. -/
def saturatedStation : Station :=
  { activatedStation with consecutiveFailures := INT_MAX }

/-- The `k`-th hourly tick of a run in which the DHT driver returns NaN. -/
def sensorFailTick (k : Nat) : TickEnv :=
  { currentTime := 3600000 * k, cycle := sensorFailCycle,
    ledMillis := 3600000 * k + 3, ledMillisAfter := 3600000 * k + 3 }


/-- An activation in which the sensor self-test succeeds and the WiFi wait
ends without a link. -/
def wifiDownBeginEnv : BeginEnv := { testTemp := .fin 21, wifiOk := false }

/-! ## Lemmas on the arithmetic -/

theorem Flt.range_check_iff (t : Flt) (a b : ℚ) :
    (Flt.ge t (.fin a) && Flt.le t (.fin b)) = true ↔
      ∃ q : ℚ, t = .fin q ∧ a ≤ q ∧ q ≤ b := by
  cases t with
  | nan => simp [Flt.ge, Flt.le]
  | negInf => simp [Flt.ge, Flt.le]
  | posInf => simp [Flt.ge, Flt.le]
  | fin q => simp [Flt.ge, Flt.le]

theorem celsiusToFahrenheit_fin (c : ℚ) :
    celsiusToFahrenheit (.fin c) = .fin (c * 9 / 5 + 32) := by
  simp [celsiusToFahrenheit, Flt.mul, Flt.div, Flt.add]

theorem fahrenheitToCelsius_fin (f : ℚ) :
    fahrenheitToCelsius (.fin f) = .fin ((f - 32) * 5 / 9) := by
  simp [fahrenheitToCelsius, Flt.mul, Flt.div, Flt.sub]

/-! ## Lemmas on rounding -/

theorem roundNearestEven_error (x : ℚ) : |(roundNearestEven x : ℚ) - x| ≤ 1 / 2 := by
  have h1 := Int.floor_le x
  have h2 := Int.lt_floor_add_one x
  unfold roundNearestEven
  split_ifs with a b c
  · rw [abs_le]; constructor <;> linarith
  · rw [abs_le]; push_cast; constructor <;> linarith
  · rw [abs_le]; constructor <;> linarith
  · rw [abs_le]; push_cast; constructor <;> linarith

theorem roundNearestEven_eq (x : ℚ) (n : ℤ) (h1 : (n : ℚ) - 1 / 2 < x)
    (h2 : x < (n : ℚ) + 1 / 2) : roundNearestEven x = n := by
  have f1 := Int.floor_le x
  have f2 := Int.lt_floor_add_one x
  have e := roundNearestEven_error x
  rw [abs_le] at e
  have : ((roundNearestEven x : ℤ) : ℚ) < n + 1 := by linarith [e.2]
  have : (n : ℚ) - 1 < roundNearestEven x := by linarith [e.1]
  have a : roundNearestEven x < n + 1 := by exact_mod_cast ‹((roundNearestEven x : ℤ) : ℚ) < n + 1›
  have b : n - 1 < roundNearestEven x := by exact_mod_cast ‹(n : ℚ) - 1 < roundNearestEven x›
  omega

/-- The exponent of a non-zero rational. -/
theorem log_eq_of_bounds (x : ℚ) (e : ℤ) (h1 : (2 : ℚ) ^ e ≤ x) (h2 : x < 2 ^ (e + 1)) :
    Int.log 2 x = e := by
  have hx : 0 < x := lt_of_lt_of_le (by positivity) h1
  have a : e ≤ Int.log 2 x := (Int.zpow_le_iff_le_log (by norm_num) hx).1 (by exact_mod_cast h1)
  have b : Int.log 2 x < e + 1 := (Int.lt_zpow_iff_log_lt (by norm_num) hx).1 (by exact_mod_cast h2)
  omega

theorem Flt.quantumExp_eq (p emin e : ℤ) (x : ℚ) (h1 : (2 : ℚ) ^ e ≤ |x|)
    (h2 : |x| < 2 ^ (e + 1)) (he : emin ≤ e) :
    Flt.quantumExp p emin x = e - (p - 1) := by
  rw [Flt.quantumExp, log_eq_of_bounds |x| e h1 h2, max_eq_left he]

/-- Evaluation of a rounding in the normal range: `x` lies in the binade of
exponent `e` and `n` is the integer nearest to `x / 2^(e-(p-1))`. -/
theorem Flt.roundFormat_eval (p emin emax e : ℤ) (x : ℚ) (n : ℤ)
    (h1 : (2 : ℚ) ^ e ≤ |x|) (h2 : |x| < 2 ^ (e + 1)) (he : emin ≤ e)
    (hn1 : (n : ℚ) - 1 / 2 < x / 2 ^ (e - (p - 1)))
    (hn2 : x / 2 ^ (e - (p - 1)) < (n : ℚ) + 1 / 2)
    (hy : |(n : ℚ) * 2 ^ (e - (p - 1))| < 2 ^ (emax + 1)) :
    Flt.roundFormat p emin emax x = .fin ((n : ℚ) * 2 ^ (e - (p - 1))) := by
  have hx0 : x ≠ 0 := by
    intro h
    rw [h, abs_zero] at h1
    exact absurd h1 (not_le.mpr (by positivity))
  have hq := Flt.quantumExp_eq p emin e x h1 h2 he
  have hr := roundNearestEven_eq _ n hn1 hn2
  simp only [Flt.roundFormat, hx0, if_false, hq, hr]
  rw [if_neg (not_le.mpr hy)]

/-- The standard model of rounding: in the normal range the result is finite
and within relative error `2^(-p)` of the exact value. -/
theorem Flt.roundFormat_std (p emin emax : ℤ) (hp : 1 ≤ p) (x : ℚ)
    (h1 : (2 : ℚ) ^ emin ≤ |x|) (h2 : |x| ≤ 2 ^ emax) :
    ∃ y : ℚ, Flt.roundFormat p emin emax x = .fin y ∧ |y - x| ≤ 2 ^ (-p) * |x| := by
  have hpos : 0 < |x| := lt_of_lt_of_le (by positivity) h1
  have hx0 : x ≠ 0 := abs_pos.mp hpos
  have he1 : (2 : ℚ) ^ Int.log 2 |x| ≤ |x| := by
    exact_mod_cast Int.zpow_log_le_self (b := 2) (by norm_num) hpos
  have he2 : |x| < (2 : ℚ) ^ (Int.log 2 |x| + 1) := by
    exact_mod_cast Int.lt_zpow_succ_log_self (b := 2) (by norm_num) |x|
  have hemin : emin ≤ Int.log 2 |x| :=
    (Int.zpow_le_iff_le_log (b := 2) (by norm_num) hpos).1 (by exact_mod_cast h1)
  have hemax : Int.log 2 |x| ≤ emax :=
    (zpow_le_zpow_iff_right₀ (a := (2 : ℚ)) (by norm_num)).1 (le_trans he1 h2)
  have hq := Flt.quantumExp_eq p emin _ x he1 he2 hemin
  generalize Int.log 2 |x| = e at *
  have hqpos : (0 : ℚ) < 2 ^ (e - (p - 1)) := by positivity
  have herr := roundNearestEven_error (x / 2 ^ (e - (p - 1)))
  have hdiff : |(roundNearestEven (x / 2 ^ (e - (p - 1))) : ℚ) * 2 ^ (e - (p - 1)) - x| ≤
      2 ^ (e - (p - 1)) / 2 := by
    have : (roundNearestEven (x / 2 ^ (e - (p - 1))) : ℚ) * 2 ^ (e - (p - 1)) - x =
        ((roundNearestEven (x / 2 ^ (e - (p - 1))) : ℚ) - x / 2 ^ (e - (p - 1))) *
          2 ^ (e - (p - 1)) := by
      field_simp
    rw [this, abs_mul, abs_of_pos hqpos]
    calc |(roundNearestEven (x / 2 ^ (e - (p - 1))) : ℚ) - x / 2 ^ (e - (p - 1))| *
          2 ^ (e - (p - 1)) ≤ 1 / 2 * 2 ^ (e - (p - 1)) :=
            mul_le_mul_of_nonneg_right herr hqpos.le
      _ = 2 ^ (e - (p - 1)) / 2 := by ring
  have hhalf : (2 : ℚ) ^ (e - (p - 1)) / 2 = 2 ^ (-p) * 2 ^ e := by
    rw [← zpow_add₀ (by norm_num : (2 : ℚ) ≠ 0)]
    have : e - (p - 1) = (-p + e) + 1 := by ring
    rw [this, zpow_add_one₀ (by norm_num : (2 : ℚ) ≠ 0)]
    ring
  have hsmall : (2 : ℚ) ^ (-p) * 2 ^ e ≤ 2 ^ (-p) * |x| :=
    mul_le_mul_of_nonneg_left he1 (by positivity)
  have hlt : (2 : ℚ) ^ (-p) * 2 ^ e < 2 ^ emax := by
    rw [← zpow_add₀ (by norm_num : (2 : ℚ) ≠ 0)]
    exact zpow_lt_zpow_right₀ (by norm_num) (by omega)
  refine ⟨(roundNearestEven (x / 2 ^ (e - (p - 1))) : ℚ) * 2 ^ (e - (p - 1)), ?_, ?_⟩
  · simp only [Flt.roundFormat, hx0, if_false, hq]
    rw [if_neg]
    rw [not_le]
    have habs : |(roundNearestEven (x / 2 ^ (e - (p - 1))) : ℚ) * 2 ^ (e - (p - 1))| ≤
        |x| + 2 ^ (e - (p - 1)) / 2 := by
      have := abs_sub_abs_le_abs_sub
        ((roundNearestEven (x / 2 ^ (e - (p - 1))) : ℚ) * 2 ^ (e - (p - 1))) x
      linarith
    have h2e : (2 : ℚ) ^ (emax + 1) = 2 * 2 ^ emax := by
      rw [zpow_add_one₀ (by norm_num : (2 : ℚ) ≠ 0)]
      ring
    rw [h2e]
    linarith
  · linarith

/-- Evaluation of a rounding of a positive value in the normal range. -/
theorem Flt.roundFormat_eval_pos (p emin emax e : ℤ) (x : ℚ) (n : ℤ) (hn : 0 ≤ n)
    (h1 : (2 : ℚ) ^ e ≤ x) (h2 : x < 2 ^ (e + 1)) (he : emin ≤ e)
    (hn1 : (n : ℚ) - 1 / 2 < x / 2 ^ (e - (p - 1)))
    (hn2 : x / 2 ^ (e - (p - 1)) < (n : ℚ) + 1 / 2)
    (hy : (n : ℚ) * 2 ^ (e - (p - 1)) < 2 ^ (emax + 1)) :
    Flt.roundFormat p emin emax x = .fin ((n : ℚ) * 2 ^ (e - (p - 1))) := by
  have hx : 0 < x := lt_of_lt_of_le (by positivity) h1
  have hnq : (0 : ℚ) ≤ (n : ℚ) * 2 ^ (e - (p - 1)) :=
    mul_nonneg (by exact_mod_cast hn) (by positivity)
  exact Flt.roundFormat_eval p emin emax e x n (by rwa [abs_of_pos hx])
    (by rwa [abs_of_pos hx]) he hn1 hn2 (by rwa [abs_of_nonneg hnq])

/-- A positive value at or above `2^(emax+1)` rounds to `+inf`. -/
theorem Flt.roundFormat_overflow (p emin emax : ℤ) (hp : 1 ≤ p) (x : ℚ) (he : emin ≤ emax)
    (hx : (2 : ℚ) ^ (emax + 1) ≤ x) : Flt.roundFormat p emin emax x = .posInf := by
  have hpos : 0 < x := lt_of_lt_of_le (by positivity) hx
  have hx0 : x ≠ 0 := hpos.ne'
  have habs : |x| = x := abs_of_pos hpos
  have habspos : 0 < |x| := by rwa [habs]
  have he1 : (2 : ℚ) ^ Int.log 2 |x| ≤ |x| := by
    exact_mod_cast Int.zpow_log_le_self (b := 2) (by norm_num) habspos
  have hlog : emax + 1 ≤ Int.log 2 |x| :=
    (Int.zpow_le_iff_le_log (b := 2) (by norm_num) habspos).1
      (by rw [habs]; exact_mod_cast hx)
  have hq : Flt.quantumExp p emin x = Int.log 2 |x| - (p - 1) := by
    rw [Flt.quantumExp, max_eq_left (by omega)]
  generalize Int.log 2 |x| = e at *
  have hqpos : (0 : ℚ) < 2 ^ (e - (p - 1)) := by positivity
  -- the quotient `2^e / q` is the integer `2^(p-1)`, below `x / q`
  have hk : ((2 ^ (p - 1).toNat : ℤ) : ℚ) = (2 : ℚ) ^ e / 2 ^ (e - (p - 1)) := by
    rw [← zpow_sub₀ (by norm_num : (2 : ℚ) ≠ 0)]
    have : e - (e - (p - 1)) = ((p - 1).toNat : ℤ) := by
      rw [Int.toNat_of_nonneg (by omega)]
      ring
    rw [this, zpow_natCast]
    push_cast
    rfl
  have hle : ((2 ^ (p - 1).toNat : ℤ) : ℚ) ≤ x / 2 ^ (e - (p - 1)) := by
    rw [hk]
    rw [habs] at he1
    exact div_le_div_of_nonneg_right he1 hqpos.le
  have hfloor : (2 ^ (p - 1).toNat : ℤ) ≤ ⌊x / 2 ^ (e - (p - 1))⌋ := Int.le_floor.mpr hle
  have hrne : ⌊x / 2 ^ (e - (p - 1))⌋ ≤ roundNearestEven (x / 2 ^ (e - (p - 1))) := by
    unfold roundNearestEven
    split_ifs <;> omega
  have hbig : (2 : ℚ) ^ e ≤
      (roundNearestEven (x / 2 ^ (e - (p - 1))) : ℚ) * 2 ^ (e - (p - 1)) := by
    have h3 : ((2 ^ (p - 1).toNat : ℤ) : ℚ) ≤ roundNearestEven (x / 2 ^ (e - (p - 1))) := by
      exact_mod_cast le_trans hfloor hrne
    calc (2 : ℚ) ^ e = (2 : ℚ) ^ e / 2 ^ (e - (p - 1)) * 2 ^ (e - (p - 1)) := by
          field_simp
      _ ≤ (roundNearestEven (x / 2 ^ (e - (p - 1))) : ℚ) * 2 ^ (e - (p - 1)) := by
          rw [← hk]
          exact mul_le_mul_of_nonneg_right h3 hqpos.le
  have hgoal : (2 : ℚ) ^ (emax + 1) ≤
      |(roundNearestEven (x / 2 ^ (e - (p - 1))) : ℚ) * 2 ^ (e - (p - 1))| := by
    refine le_trans ?_ (le_trans hbig (le_abs_self _))
    exact zpow_le_zpow_right₀ (by norm_num) hlog
  simp only [Flt.roundFormat, hx0, if_false, hq, hgoal, if_true, hpos]

theorem Flt.roundFormat_zero (p emin emax : ℤ) : Flt.roundFormat p emin emax 0 = .fin 0 := by
  simp [Flt.roundFormat]

/-- Rounding an approximation of `x`: the relative errors compose. -/
theorem Flt.roundFormat_near (p emin emax : ℤ) (hp : 1 ≤ p) (ε ε' x y0 : ℚ)
    (h12 : ε ≤ 1 / 2) (hy0 : |y0 - x| ≤ ε * |x|)
    (hlo : 2 * (2 : ℚ) ^ emin ≤ |x|) (hhi : 2 * |x| ≤ 2 ^ emax)
    (hε : ε + 2 ^ (-p) + ε * 2 ^ (-p) ≤ ε') :
    ∃ y : ℚ, Flt.roundFormat p emin emax y0 = .fin y ∧ |y - x| ≤ ε' * |x| := by
  have hxn : 0 ≤ |x| := abs_nonneg x
  have hup : |y0| ≤ (1 + ε) * |x| := by
    have := abs_sub_abs_le_abs_sub y0 x
    linarith
  have hdown : (1 - ε) * |x| ≤ |y0| := by
    have := abs_sub_abs_le_abs_sub x y0
    rw [abs_sub_comm x y0] at this
    linarith
  have hmin : (2 : ℚ) ^ emin ≤ |y0| := by nlinarith
  have hmax : |y0| ≤ 2 ^ emax := by nlinarith
  obtain ⟨y, hy, herr⟩ := Flt.roundFormat_std p emin emax hp y0 hmin hmax
  refine ⟨y, hy, ?_⟩
  have hu : (0 : ℚ) ≤ 2 ^ (-p) := by positivity
  have h1 : |y - x| ≤ |y - y0| + |y0 - x| := by
    have := abs_add (y - y0) (y0 - x)
    simpa using this
  have h2 : (2 : ℚ) ^ (-p) * |y0| ≤ 2 ^ (-p) * ((1 + ε) * |x|) :=
    mul_le_mul_of_nonneg_left hup hu
  have h3 : (ε + 2 ^ (-p) + ε * 2 ^ (-p)) * |x| ≤ ε' * |x| :=
    mul_le_mul_of_nonneg_right hε hxn
  nlinarith

/-- The product of two approximations. -/
theorem near_mul (α β x z a b : ℚ) (h0 : 0 ≤ α)
    (ha : |a - x| ≤ α * |x|) (hb : |b - z| ≤ β * |z|) :
    |a * b - x * z| ≤ (α + β + α * β) * |x * z| := by
  have e : a * b - x * z = (a - x) * z + x * (b - z) + (a - x) * (b - z) := by ring
  rw [e, abs_mul x z]
  have t1 := abs_add ((a - x) * z + x * (b - z)) ((a - x) * (b - z))
  have t2 := abs_add ((a - x) * z) (x * (b - z))
  rw [abs_mul, abs_mul] at t2
  rw [abs_mul] at t1
  have hx := abs_nonneg x
  have hz := abs_nonneg z
  have p1 : |a - x| * |z| ≤ α * |x| * |z| := mul_le_mul_of_nonneg_right ha hz
  have p2 : |x| * |b - z| ≤ |x| * (β * |z|) := mul_le_mul_of_nonneg_left hb hx
  have p3 : |a - x| * |b - z| ≤ (α * |x|) * (β * |z|) :=
    mul_le_mul ha hb (abs_nonneg _) (mul_nonneg h0 hx)
  nlinarith

theorem Flt.round32_near (ε ε' x y0 : ℚ) (h12 : ε ≤ 1 / 2) (hy0 : |y0 - x| ≤ ε * |x|)
    (hlo : 1 / 2 ^ 125 ≤ |x|) (hhi : |x| ≤ 2 ^ 126)
    (hε : ε + 1 / 2 ^ 24 + ε * (1 / 2 ^ 24) ≤ ε') :
    ∃ y : ℚ, Flt.round32 (.fin y0) = .fin y ∧ |y - x| ≤ ε' * |x| := by
  refine Flt.roundFormat_near 24 (-126) 127 (by norm_num) ε ε' x y0 h12 hy0 ?_ ?_ ?_
  · refine le_trans (le_of_eq ?_) hlo
    norm_num
  · refine le_trans (mul_le_mul_of_nonneg_left hhi (by norm_num)) (le_of_eq ?_)
    norm_num
  · refine le_trans (le_of_eq ?_) hε
    norm_num

theorem Flt.round64_near (ε ε' x y0 : ℚ) (h12 : ε ≤ 1 / 2) (hy0 : |y0 - x| ≤ ε * |x|)
    (hlo : 1 / 2 ^ 125 ≤ |x|) (hhi : |x| ≤ 2 ^ 126)
    (hε : ε + 1 / 2 ^ 53 + ε * (1 / 2 ^ 53) ≤ ε') :
    ∃ y : ℚ, Flt.round64 (.fin y0) = .fin y ∧ |y - x| ≤ ε' * |x| := by
  refine Flt.roundFormat_near 53 (-1022) 1023 (by norm_num) ε ε' x y0 h12 hy0 ?_ ?_ ?_
  · refine le_trans ?_ hlo
    norm_num
  · refine le_trans (mul_le_mul_of_nonneg_left hhi (by norm_num)) ?_
    norm_num
  · refine le_trans (le_of_eq ?_) hε
    norm_num

theorem windSpeedOf_near (config : WeatherStationConfig) (raw : Int) (v m : ℚ)
    (h1 : config.windVoltageMax = .fin v) (h2 : config.windSpeedMaxMPH = .fin m)
    (hraw1 : 1 ≤ raw) (hraw2 : raw ≤ 4095)
    (hv1 : 1 / 2 ^ 60 ≤ |v|) (hv2 : |v| ≤ 2 ^ 60)
    (hm1 : 1 / 2 ^ 60 ≤ |m|) (hm2 : |m| ≤ 2 ^ 60) :
    ∃ y : ℚ, windSpeedOf config raw = .fin y ∧
      |y - (raw : ℚ) / 4095 * m| ≤ 1 / 2 ^ 21 * |(raw : ℚ) / 4095 * m| := by
  have hvpos : 0 < |v| := lt_of_lt_of_le (by norm_num) hv1
  have hv0 : v ≠ 0 := abs_pos.mp hvpos
  have hr1 : (1 : ℚ) ≤ raw := by exact_mod_cast hraw1
  have hr2 : (raw : ℚ) ≤ 4095 := by exact_mod_cast hraw2
  have hrabs : |(raw : ℚ)| = raw := abs_of_pos (by linarith)
  have hqabs : |(raw : ℚ) / 4095| = (raw : ℚ) / 4095 := abs_of_pos (by positivity)
  have hq1 : (1 : ℚ) / 4095 ≤ (raw : ℚ) / 4095 := by
    apply div_le_div_of_nonneg_right hr1; norm_num
  have hq2 : (raw : ℚ) / 4095 ≤ 1 := by
    rw [div_le_one (by norm_num)]; exact hr2
  have hXabs : |(raw : ℚ) / 4095 * v| = (raw : ℚ) / 4095 * |v| := by
    rw [abs_mul, hqabs]
  have hSabs : |(raw : ℚ) / 4095 * m| = (raw : ℚ) / 4095 * |m| := by
    rw [abs_mul, hqabs]
  have hRabs : |m / v| = |m| / |v| := abs_div m v
  -- step 0: `(float)adcValue`
  obtain ⟨a0, e0, n0⟩ := Flt.round32_near 0 (1 / 2 ^ 24) (raw : ℚ) (raw : ℚ) (by norm_num)
    (by simp) (by rw [hrabs]; linarith) (by rw [hrabs]; linarith) (by norm_num)
  -- step 1: `/ 4095.0` in double precision
  have n0' : |a0 / 4095 - (raw : ℚ) / 4095| ≤ 1 / 2 ^ 24 * |(raw : ℚ) / 4095| := by
    have : a0 / 4095 - (raw : ℚ) / 4095 = (a0 - raw) / 4095 := by ring
    rw [this, abs_div, abs_div]
    have h4 : |(4095 : ℚ)| = 4095 := abs_of_pos (by norm_num)
    rw [h4, ← mul_div_assoc]
    exact div_le_div_of_nonneg_right n0 (by norm_num)
  obtain ⟨a1, e1, n1⟩ := Flt.round64_near (1 / 2 ^ 24) (101 / 100 / 2 ^ 24)
    ((raw : ℚ) / 4095) (a0 / 4095) (by norm_num) n0'
    (by rw [hqabs]; linarith) (by rw [hqabs]; linarith) (by norm_num)
  -- step 2: `* config.windVoltageMax` in double precision
  have n1' : |a1 * v - (raw : ℚ) / 4095 * v| ≤
      101 / 100 / 2 ^ 24 * |(raw : ℚ) / 4095 * v| := by
    have := near_mul (101 / 100 / 2 ^ 24) 0 ((raw : ℚ) / 4095) v a1 v (by norm_num) n1
      (by simp)
    simpa using this
  have hXlo : (1 : ℚ) / 2 ^ 125 ≤ |(raw : ℚ) / 4095 * v| := by
    rw [hXabs]
    have : (1 : ℚ) / 4095 * (1 / 2 ^ 60) ≤ (raw : ℚ) / 4095 * |v| :=
      mul_le_mul hq1 hv1 (by norm_num) (by positivity)
    refine le_trans ?_ this
    norm_num
  have hXhi : |(raw : ℚ) / 4095 * v| ≤ 2 ^ 126 := by
    rw [hXabs]
    have : (raw : ℚ) / 4095 * |v| ≤ 1 * 2 ^ 60 :=
      mul_le_mul hq2 hv2 (abs_nonneg v) (by norm_num)
    refine le_trans this ?_
    norm_num
  obtain ⟨a2, e2, n2⟩ := Flt.round64_near (101 / 100 / 2 ^ 24) (102 / 100 / 2 ^ 24)
    ((raw : ℚ) / 4095 * v) (a1 * v) (by norm_num) n1' hXlo hXhi (by norm_num)
  -- step 3: the assignment to `float voltage`
  obtain ⟨a3, e3, n3⟩ := Flt.round32_near (102 / 100 / 2 ^ 24) (203 / 100 / 2 ^ 24)
    ((raw : ℚ) / 4095 * v) a2 (by norm_num) n2 hXlo hXhi (by norm_num)
  -- the quotient `windSpeedMaxMPH / windVoltageMax` in single precision
  have hRlo : (1 : ℚ) / 2 ^ 125 ≤ |m / v| := by
    rw [hRabs, le_div_iff₀ hvpos]
    have : (1 : ℚ) / 2 ^ 125 * |v| ≤ 1 / 2 ^ 125 * 2 ^ 60 :=
      mul_le_mul_of_nonneg_left hv2 (by norm_num)
    refine le_trans this (le_trans ?_ hm1)
    norm_num
  have hRhi : |m / v| ≤ 2 ^ 126 := by
    rw [hRabs, div_le_iff₀ hvpos]
    have : (2 : ℚ) ^ 126 * (1 / 2 ^ 60) ≤ 2 ^ 126 * |v| :=
      mul_le_mul_of_nonneg_left hv1 (by norm_num)
    refine le_trans hm2 (le_trans ?_ this)
    norm_num
  obtain ⟨r, er, nr⟩ := Flt.round32_near 0 (1 / 2 ^ 24) (m / v) (m / v) (by norm_num)
    (by simp) hRlo hRhi (by norm_num)
  -- the product in single precision
  have hexact : (raw : ℚ) / 4095 * v * (m / v) = (raw : ℚ) / 4095 * m := by
    field_simp
    ring
  have np : |a3 * r - (raw : ℚ) / 4095 * m| ≤
      (203 / 100 / 2 ^ 24 + 1 / 2 ^ 24 + 203 / 100 / 2 ^ 24 * (1 / 2 ^ 24)) *
        |(raw : ℚ) / 4095 * m| := by
    have := near_mul (203 / 100 / 2 ^ 24) (1 / 2 ^ 24) ((raw : ℚ) / 4095 * v) (m / v) a3 r
      (by norm_num) n3 nr
    rwa [hexact] at this
  have hSlo : (1 : ℚ) / 2 ^ 125 ≤ |(raw : ℚ) / 4095 * m| := by
    rw [hSabs]
    have : (1 : ℚ) / 4095 * (1 / 2 ^ 60) ≤ (raw : ℚ) / 4095 * |m| :=
      mul_le_mul hq1 hm1 (by norm_num) (by positivity)
    refine le_trans ?_ this
    norm_num
  have hShi : |(raw : ℚ) / 4095 * m| ≤ 2 ^ 126 := by
    rw [hSabs]
    have : (raw : ℚ) / 4095 * |m| ≤ 1 * 2 ^ 60 :=
      mul_le_mul hq2 hm2 (abs_nonneg m) (by norm_num)
    refine le_trans this ?_
    norm_num
  obtain ⟨y, ey, ny⟩ := Flt.round32_near
    (203 / 100 / 2 ^ 24 + 1 / 2 ^ 24 + 203 / 100 / 2 ^ 24 * (1 / 2 ^ 24)) (1 / 2 ^ 21)
    ((raw : ℚ) / 4095 * m) (a3 * r) (by norm_num) np hSlo hShi (by norm_num)
  refine ⟨y, ?_, ny⟩
  have d1 : Flt.div (.fin a0) (.fin 4095) = .fin (a0 / 4095) := by
    simp [Flt.div]
  have d2 : Flt.div (.fin m) (.fin v) = .fin (m / v) := by
    simp [Flt.div, hv0]
  simp only [windSpeedOf, h1, h2, Flt.mul32, Flt.div32, Flt.mul64, Flt.div64, Flt.ofInt,
    e0, d1, e1, Flt.mul, e2, e3, d2, er, ey]

theorem windSpeedOf_zero (config : WeatherStationConfig) (v m : ℚ)
    (h1 : config.windVoltageMax = .fin v) (h2 : config.windSpeedMaxMPH = .fin m)
    (hv1 : 1 / 2 ^ 60 ≤ |v|) (hv2 : |v| ≤ 2 ^ 60)
    (hm1 : 1 / 2 ^ 60 ≤ |m|) (hm2 : |m| ≤ 2 ^ 60) :
    windSpeedOf config 0 = .fin 0 := by
  have hvpos : 0 < |v| := lt_of_lt_of_le (by norm_num) hv1
  have hv0 : v ≠ 0 := abs_pos.mp hvpos
  have hRabs : |m / v| = |m| / |v| := abs_div m v
  have hRlo : (1 : ℚ) / 2 ^ 125 ≤ |m / v| := by
    rw [hRabs, le_div_iff₀ hvpos]
    have : (1 : ℚ) / 2 ^ 125 * |v| ≤ 1 / 2 ^ 125 * 2 ^ 60 :=
      mul_le_mul_of_nonneg_left hv2 (by norm_num)
    refine le_trans this (le_trans ?_ hm1)
    norm_num
  have hRhi : |m / v| ≤ 2 ^ 126 := by
    rw [hRabs, div_le_iff₀ hvpos]
    have : (2 : ℚ) ^ 126 * (1 / 2 ^ 60) ≤ 2 ^ 126 * |v| :=
      mul_le_mul_of_nonneg_left hv1 (by norm_num)
    refine le_trans hm2 (le_trans ?_ this)
    norm_num
  obtain ⟨r, er, -⟩ := Flt.round32_near 0 (1 / 2 ^ 24) (m / v) (m / v) (by norm_num)
    (by simp) hRlo hRhi (by norm_num)
  have d2 : Flt.div (.fin m) (.fin v) = .fin (m / v) := by
    simp [Flt.div, hv0]
  have z32 : Flt.round32 (.fin 0) = .fin 0 := Flt.roundFormat_zero _ _ _
  have z64 : Flt.round64 (.fin 0) = .fin 0 := Flt.roundFormat_zero _ _ _
  have d1 : Flt.div (.fin 0) (.fin 4095) = .fin 0 := by
    simp [Flt.div]
  simp only [windSpeedOf, h1, h2, Flt.mul32, Flt.div32, Flt.mul64, Flt.div64, Flt.ofInt,
    Int.cast_zero, z32, d1, z64, Flt.mul, zero_mul, d2, er]

/-- Evaluation of a binary32 rounding of a positive value: `y` is the multiple
`n * 2^(e-23)` of the quantum nearest to `x`. -/
theorem Flt.round32_eval (e n : ℤ) (x y : ℚ) (hn : 0 ≤ n) (he : -126 ≤ e)
    (h1 : (2 : ℚ) ^ e ≤ x) (h2 : x < 2 ^ (e + 1)) (hy : y = (n : ℚ) * 2 ^ (e - 23))
    (hn1 : y - 2 ^ (e - 23) / 2 < x) (hn2 : x < y + 2 ^ (e - 23) / 2)
    (hmax : y < 2 ^ 128) : Flt.round32 (.fin x) = .fin y := by
  have hq : (0 : ℚ) < 2 ^ (e - 23) := by positivity
  have key := Flt.roundFormat_eval_pos 24 (-126) 127 e x n hn h1 h2 he
    (by
      have : e - (24 - 1) = e - 23 := by ring
      rw [this, lt_div_iff₀ hq]
      rw [hy] at hn1
      linarith)
    (by
      have : e - (24 - 1) = e - 23 := by ring
      rw [this, div_lt_iff₀ hq]
      rw [hy] at hn2
      linarith)
    (by
      have : e - (24 - 1) = e - 23 := by ring
      rw [this, ← hy]
      refine lt_of_lt_of_le hmax (le_of_eq ?_)
      norm_num)
  have h3 : e - (24 - 1) = e - 23 := by ring
  rw [h3, ← hy] at key
  exact key

/-- Evaluation of a binary64 rounding of a positive value. -/
theorem Flt.round64_eval (e n : ℤ) (x y : ℚ) (hn : 0 ≤ n) (he : -1022 ≤ e)
    (h1 : (2 : ℚ) ^ e ≤ x) (h2 : x < 2 ^ (e + 1)) (hy : y = (n : ℚ) * 2 ^ (e - 52))
    (hn1 : y - 2 ^ (e - 52) / 2 < x) (hn2 : x < y + 2 ^ (e - 52) / 2)
    (hmax : y < 2 ^ 1024) : Flt.round64 (.fin x) = .fin y := by
  have hq : (0 : ℚ) < 2 ^ (e - 52) := by positivity
  have key := Flt.roundFormat_eval_pos 53 (-1022) 1023 e x n hn h1 h2 he
    (by
      have : e - (53 - 1) = e - 52 := by ring
      rw [this, lt_div_iff₀ hq]
      rw [hy] at hn1
      linarith)
    (by
      have : e - (53 - 1) = e - 52 := by ring
      rw [this, div_lt_iff₀ hq]
      rw [hy] at hn2
      linarith)
    (by
      have : e - (53 - 1) = e - 52 := by ring
      rw [this, ← hy]
      refine lt_of_lt_of_le hmax (le_of_eq ?_)
      norm_num)
  have h3 : e - (53 - 1) = e - 52 := by ring
  rw [h3, ← hy] at key
  exact key

/-- The value of `windSpeedOf` from the values of its six roundings. -/
theorem windSpeedOf_eval (config : WeatherStationConfig) (raw : Int)
    (v m a0 a1 a2 a3 r y : ℚ)
    (h1 : config.windVoltageMax = .fin v) (h2 : config.windSpeedMaxMPH = .fin m)
    (hv0 : v ≠ 0)
    (e0 : Flt.round32 (.fin (raw : ℚ)) = .fin a0)
    (e1 : Flt.round64 (.fin (a0 / 4095)) = .fin a1)
    (e2 : Flt.round64 (.fin (a1 * v)) = .fin a2)
    (e3 : Flt.round32 (.fin a2) = .fin a3)
    (er : Flt.round32 (.fin (m / v)) = .fin r)
    (ey : Flt.round32 (.fin (a3 * r)) = .fin y) :
    windSpeedOf config raw = .fin y := by
  have d1 : Flt.div (.fin a0) (.fin 4095) = .fin (a0 / 4095) := by
    simp [Flt.div]
  have d2 : Flt.div (.fin m) (.fin v) = .fin (m / v) := by
    simp [Flt.div, hv0]
  simp only [windSpeedOf, h1, h2, Flt.mul32, Flt.div32, Flt.mul64, Flt.div64, Flt.ofInt,
    e0, d1, e1, Flt.mul, e2, e3, d2, er, ey]

theorem round32_literal_3_3 :
    Flt.round32 (.fin (33 / 10)) = .fin (13841203 / 4194304) :=
  Flt.round32_eval 1 13841203 _ _ (by norm_num) (by norm_num) (by norm_num) (by norm_num)
    (by norm_num) (by norm_num) (by norm_num) (by norm_num)

theorem round32_literal_32_4 :
    Flt.round32 (.fin (324 / 10)) = .fin (4246733 / 131072) :=
  Flt.round32_eval 5 8493466 _ _ (by norm_num) (by norm_num) (by norm_num) (by norm_num)
    (by norm_num) (by norm_num) (by norm_num) (by norm_num)

theorem windSpeedOf_default_fullScale (config : WeatherStationConfig)
    (h1 : config.windVoltageMax = .fin (13841203 / 4194304))
    (h2 : config.windSpeedMaxMPH = .fin (4246733 / 131072)) :
    windSpeedOf config 4095 = .fin (4246733 / 131072) :=
  windSpeedOf_eval config 4095 _ _ 4095 1 (13841203 / 4194304) (13841203 / 4194304)
    (5147555 / 524288) _ h1 h2 (by norm_num)
    (Flt.round32_eval 11 16773120 _ _ (by norm_num) (by norm_num) (by norm_num)
      (by norm_num) (by norm_num) (by norm_num) (by norm_num) (by norm_num))
    (Flt.round64_eval 0 4503599627370496 _ _ (by norm_num) (by norm_num) (by norm_num)
      (by norm_num) (by norm_num) (by norm_num) (by norm_num) (by norm_num))
    (Flt.round64_eval 1 7430939277787136 _ _ (by norm_num) (by norm_num) (by norm_num)
      (by norm_num) (by norm_num) (by norm_num) (by norm_num) (by norm_num))
    (Flt.round32_eval 1 13841203 _ _ (by norm_num) (by norm_num) (by norm_num)
      (by norm_num) (by norm_num) (by norm_num) (by norm_num) (by norm_num))
    (Flt.round32_eval 3 10295110 _ _ (by norm_num) (by norm_num) (by norm_num)
      (by norm_num) (by norm_num) (by norm_num) (by norm_num) (by norm_num))
    (Flt.round32_eval 5 8493466 _ _ (by norm_num) (by norm_num) (by norm_num)
      (by norm_num) (by norm_num) (by norm_num) (by norm_num) (by norm_num))

theorem windSpeedOf_7_31_fullScale (config : WeatherStationConfig)
    (h1 : config.windVoltageMax = .fin 7) (h2 : config.windSpeedMaxMPH = .fin 31) :
    windSpeedOf config 4095 = .fin (16252927 / 524288) :=
  windSpeedOf_eval config 4095 _ _ 4095 1 7 7 (9287387 / 2097152) _ h1 h2 (by norm_num)
    (Flt.round32_eval 11 16773120 _ _ (by norm_num) (by norm_num) (by norm_num)
      (by norm_num) (by norm_num) (by norm_num) (by norm_num) (by norm_num))
    (Flt.round64_eval 0 4503599627370496 _ _ (by norm_num) (by norm_num) (by norm_num)
      (by norm_num) (by norm_num) (by norm_num) (by norm_num) (by norm_num))
    (Flt.round64_eval 2 7881299347898368 _ _ (by norm_num) (by norm_num) (by norm_num)
      (by norm_num) (by norm_num) (by norm_num) (by norm_num) (by norm_num))
    (Flt.round32_eval 2 14680064 _ _ (by norm_num) (by norm_num) (by norm_num)
      (by norm_num) (by norm_num) (by norm_num) (by norm_num) (by norm_num))
    (Flt.round32_eval 2 9287387 _ _ (by norm_num) (by norm_num) (by norm_num)
      (by norm_num) (by norm_num) (by norm_num) (by norm_num) (by norm_num))
    (Flt.round32_eval 4 16252927 _ _ (by norm_num) (by norm_num) (by norm_num)
      (by norm_num) (by norm_num) (by norm_num) (by norm_num) (by norm_num))

/-- With a zero reference voltage the quotient is an infinity and the product
with the zero voltage is NaN, whatever the count. -/
theorem windSpeedOf_zero_voltage (config : WeatherStationConfig) (raw : Int) (m : ℚ)
    (h1 : config.windVoltageMax = .fin 0) (h2 : config.windSpeedMaxMPH = .fin m)
    (hm : 0 < m) : windSpeedOf config raw = .nan := by
  have hq : Flt.div (.fin m) (.fin 0) = .posInf := by
    simp [Flt.div, hm.ne', hm]
  have hv : ∀ a : Flt, Flt.round32 (Flt.mul64 a (.fin 0)) = .fin 0 ∨
      Flt.round32 (Flt.mul64 a (.fin 0)) = .nan := by
    intro a
    cases a with
    | nan => right; rfl
    | negInf => right; simp [Flt.mul64, Flt.mul, Flt.infMul, Flt.round64, Flt.round32]
    | posInf => right; simp [Flt.mul64, Flt.mul, Flt.infMul, Flt.round64, Flt.round32]
    | fin q =>
      left
      simp [Flt.mul64, Flt.mul, Flt.round64, Flt.round32, Flt.roundFormat_zero]
  simp only [windSpeedOf, h1, h2, Flt.div32, hq, Flt.mul32]
  rcases hv (Flt.div64 (Flt.round32 (Flt.ofInt raw)) (.fin 4095)) with h | h <;>
    rw [h] <;> simp [Flt.mul, Flt.infMul, Flt.round32]

/-- With reference voltage `2^-100` and max speed `2^100` the quotient
overflows to `+inf`, and at raw count 0 the product `0 * inf` is NaN. -/
theorem windSpeedOf_overflow (config : WeatherStationConfig)
    (h1 : config.windVoltageMax = .fin (1 / 2 ^ 100))
    (h2 : config.windSpeedMaxMPH = .fin (2 ^ 100)) :
    windSpeedOf config 0 = .nan := by
  have hq : Flt.round32 (.fin ((2 : ℚ) ^ 100 / (1 / 2 ^ 100))) = .posInf :=
    Flt.roundFormat_overflow 24 (-126) 127 (by norm_num) _ (by norm_num) (by norm_num)
  have d2 : Flt.div (.fin ((2 : ℚ) ^ 100)) (.fin (1 / 2 ^ 100)) =
      .fin ((2 : ℚ) ^ 100 / (1 / 2 ^ 100)) := by
    simp [Flt.div]
  have z32 : Flt.round32 (.fin 0) = .fin 0 := Flt.roundFormat_zero _ _ _
  have z64 : Flt.round64 (.fin 0) = .fin 0 := Flt.roundFormat_zero _ _ _
  have d1 : Flt.div (.fin 0) (.fin 4095) = .fin 0 := by
    simp [Flt.div]
  simp only [windSpeedOf, h1, h2, Flt.mul32, Flt.div32, Flt.mul64, Flt.div64, Flt.ofInt,
    Int.cast_zero, z32, d1, z64, Flt.mul, zero_mul, d2, hq]
  simp [Flt.infMul, Flt.round32]

/-- With reference voltage 1 and max speed 0 the speed at full scale is 0. -/
theorem windSpeedOf_zero_maxSpeed_fullScale (config : WeatherStationConfig)
    (h1 : config.windVoltageMax = .fin 1) (h2 : config.windSpeedMaxMPH = .fin 0) :
    windSpeedOf config 4095 = .fin 0 :=
  windSpeedOf_eval config 4095 _ _ 4095 1 1 1 0 0 h1 h2 (by norm_num)
    (Flt.round32_eval 11 16773120 _ _ (by norm_num) (by norm_num) (by norm_num)
      (by norm_num) (by norm_num) (by norm_num) (by norm_num) (by norm_num))
    (Flt.round64_eval 0 4503599627370496 _ _ (by norm_num) (by norm_num) (by norm_num)
      (by norm_num) (by norm_num) (by norm_num) (by norm_num) (by norm_num))
    (Flt.round64_eval 0 4503599627370496 _ _ (by norm_num) (by norm_num) (by norm_num)
      (by norm_num) (by norm_num) (by norm_num) (by norm_num) (by norm_num))
    (Flt.round32_eval 0 8388608 _ _ (by norm_num) (by norm_num) (by norm_num)
      (by norm_num) (by norm_num) (by norm_num) (by norm_num) (by norm_num))
    (by rw [zero_div]; exact Flt.roundFormat_zero _ _ _)
    (by rw [mul_zero]; exact Flt.roundFormat_zero _ _ _)

/-- With reference voltage 1 and max speed 0 the speed at count 0 is 0. -/
theorem windSpeedOf_zero_maxSpeed_zero (config : WeatherStationConfig)
    (h1 : config.windVoltageMax = .fin 1) (h2 : config.windSpeedMaxMPH = .fin 0) :
    windSpeedOf config 0 = .fin 0 := by
  have z32 : Flt.round32 (.fin 0) = .fin 0 := Flt.roundFormat_zero _ _ _
  have z64 : Flt.round64 (.fin 0) = .fin 0 := Flt.roundFormat_zero _ _ _
  have d1 : Flt.div (.fin 0) (.fin 4095) = .fin 0 := by
    simp [Flt.div]
  have d2 : Flt.div (.fin 0) (.fin 1) = .fin 0 := by
    simp [Flt.div]
  simp only [windSpeedOf, h1, h2, Flt.mul32, Flt.div32, Flt.mul64, Flt.div64, Flt.ofInt,
    Int.cast_zero, z32, d1, z64, Flt.mul, zero_mul, d2]

/-- The approximation bound read as an interval around the exact value. -/
theorem near_interval (ε x y : ℚ) (hx : 0 ≤ x) (h : |y - x| ≤ ε * |x|) :
    (1 - ε) * x ≤ y ∧ y ≤ (1 + ε) * x := by
  rw [abs_of_nonneg hx, abs_le] at h
  constructor <;> linarith [h.1, h.2]

/-! ## Frame lemmas: what each operation leaves unchanged -/

/-- When `readSensors` marks a reading valid, and what its fields are. -/
theorem readSensors_isValid_spec (s : Station) (e : SensorEnv) :
    ((readSensors s e).2.isValid = true ↔
      e.tempC.isnan = false ∧ e.humidity.isnan = false ∧
      isValidTemperature (readSensors s e).2.temperature = true ∧
      isValidHumidity (readSensors s e).2.humidity = true ∧
      isValidWindSpeed (readSensors s e).2.windSpeed = true) ∧
    (e.tempC.isnan = true ∨ e.humidity.isnan = true →
      (readSensors s e).2.isValid = false) ∧
    (e.tempC.isnan = false ∧ e.humidity.isnan = false →
      (readSensors s e).2.temperature = celsiusToFahrenheit e.tempC ∧
      (readSensors s e).2.humidity = e.humidity ∧
      (readSensors s e).2.windSpeed = windSpeedOf s.config e.adcValue) := by
  by_cases hn : (e.tempC.isnan || e.humidity.isnan) = true
  · have hn2 := hn
    simp only [Bool.or_eq_true] at hn2
    refine ⟨?_, ?_, ?_⟩
    · simp only [readSensors, hn, if_true]
      constructor
      · intro h
        cases h
      · rintro ⟨h1, h2, -⟩
        rcases hn2 with h | h
        · rw [h] at h1
          cases h1
        · rw [h] at h2
          cases h2
    · intro _
      simp [readSensors, hn]
    · rintro ⟨h1, h2⟩
      rcases hn2 with h | h
      · rw [h] at h1
        cases h1
      · rw [h] at h2
        cases h2
  · have hn2 := hn
    simp only [Bool.or_eq_true, not_or, Bool.not_eq_true] at hn2
    obtain ⟨h1, h2⟩ := hn2
    by_cases hv : (isValidTemperature (celsiusToFahrenheit e.tempC) &&
        isValidHumidity e.humidity &&
        isValidWindSpeed (windSpeedOf s.config e.adcValue)) = true
    · have hv2 := hv
      simp only [Bool.and_eq_true] at hv2
      simp [readSensors, readWindSpeed, Station.emit, h1, h2, hv2]
    · have hv2 := hv
      simp only [Bool.and_eq_true, not_and, Bool.not_eq_true] at hv2
      refine ⟨?_, ?_, ?_⟩
      · simp only [readSensors, readWindSpeed, Station.emit, h1, h2, Bool.or_self,
          Bool.false_eq_true, if_false, hv]
        constructor
        · intro h
          cases h
        · rintro ⟨-, -, a, b, c⟩
          exact absurd (by simp [a, b, c]) hv
      · rintro (h | h)
        · rw [h] at h1
          cases h1
        · rw [h] at h2
          cases h2
      · intro _
        simp [readSensors, readWindSpeed, Station.emit, h1, h2, hv]

theorem connectToWiFi_snd (s : Station) (connected : Bool) :
    (connectToWiFi s connected).2 = connected := by
  cases connected <;> rfl

theorem connectToWiFi_fst (s : Station) (connected : Bool) :
    (connectToWiFi s connected).1 =
      { s with
        currentStatus := if connected then WS_STATUS_WIFI_CONNECTED else WS_STATUS_WIFI_FAILED
        log := s.log ++ [.wifiBegin s.config.wifiSSID s.config.wifiPassword] } := by
  cases connected <;> rfl

theorem readSensors_snd (s : Station) (e : SensorEnv) :
    (readSensors s e).2 = sensorReading s.config e := by
  simp only [readSensors, sensorReading, readWindSpeed, Station.emit]
  split_ifs <;> rfl

theorem readSensors_fst (s : Station) (e : SensorEnv) :
    (readSensors s e).1 = { s with log := (readSensors s e).1.log } := by
  simp only [readSensors, readWindSpeed, Station.emit]
  split_ifs <;> rfl

theorem submitReading_snd (s : Station) (reading : WeatherReading) (wifiUp : Bool)
    (code : Int) :
    (submitReading s reading wifiUp code).2 = (wifiUp && (code == 200 || code == 429)) := by
  cases wifiUp with
  | false => simp [submitReading]
  | true =>
    by_cases hpos : code > 0
    · simp [submitReading, hpos]
    · have h200 : code ≠ 200 := by omega
      have h429 : code ≠ 429 := by omega
      simp [submitReading, hpos, h200, h429]

theorem submitReading_fst (s : Station) (reading : WeatherReading) (wifiUp : Bool)
    (code : Int) :
    (submitReading s reading wifiUp code).1 =
      { s with log := (submitReading s reading wifiUp code).1.log } := by
  simp only [submitReading, Station.emit]
  split_ifs <;> rfl

theorem blinkLED_eq (s : Station) (times : Nat) :
    blinkLED s times = { s with log := (blinkLED s times).log } := by
  induction times generalizing s with
  | zero => rfl
  | succ n ih =>
    rw [blinkLED, ih]
    simp [Station.emit]

theorem updateStatusLED_eq (s : Station) (t1 t2 : Nat) :
    updateStatusLED s t1 t2 =
      { s with
        lastBlink := (updateStatusLED s t1 t2).lastBlink
        ledState := (updateStatusLED s t1 t2).ledState
        log := (updateStatusLED s t1 t2).log } := by
  simp only [updateStatusLED, Station.emit]
  split_ifs <;> rfl

@[simp] theorem readSensors_config (s : Station) (e : SensorEnv) :
    (readSensors s e).1.config = s.config := by
  rw [readSensors_fst]

@[simp] theorem submitReading_config (s : Station) (reading : WeatherReading) (wifiUp : Bool)
    (code : Int) : (submitReading s reading wifiUp code).1.config = s.config := by
  rw [submitReading_fst]

@[simp] theorem blinkLED_config (s : Station) (times : Nat) :
    (blinkLED s times).config = s.config := by
  rw [blinkLED_eq]

@[simp] theorem updateStatusLED_config (s : Station) (t1 t2 : Nat) :
    (updateStatusLED s t1 t2).config = s.config := by
  rw [updateStatusLED_eq]

@[simp] theorem connectToWiFi_config (s : Station) (connected : Bool) :
    (connectToWiFi s connected).1.config = s.config := by
  rw [connectToWiFi_fst]

@[simp] theorem readSensors_dht (s : Station) (e : SensorEnv) :
    (readSensors s e).1.dht = s.dht := by
  rw [readSensors_fst]

@[simp] theorem submitReading_dht (s : Station) (reading : WeatherReading) (wifiUp : Bool)
    (code : Int) : (submitReading s reading wifiUp code).1.dht = s.dht := by
  rw [submitReading_fst]

@[simp] theorem blinkLED_dht (s : Station) (times : Nat) :
    (blinkLED s times).dht = s.dht := by
  rw [blinkLED_eq]

@[simp] theorem updateStatusLED_dht (s : Station) (t1 t2 : Nat) :
    (updateStatusLED s t1 t2).dht = s.dht := by
  rw [updateStatusLED_eq]

@[simp] theorem connectToWiFi_dht (s : Station) (connected : Bool) :
    (connectToWiFi s connected).1.dht = s.dht := by
  rw [connectToWiFi_fst]

@[simp] theorem readSensors_currentStatus (s : Station) (e : SensorEnv) :
    (readSensors s e).1.currentStatus = s.currentStatus := by
  rw [readSensors_fst]

@[simp] theorem submitReading_currentStatus (s : Station) (reading : WeatherReading) (wifiUp : Bool)
    (code : Int) : (submitReading s reading wifiUp code).1.currentStatus = s.currentStatus := by
  rw [submitReading_fst]

@[simp] theorem blinkLED_currentStatus (s : Station) (times : Nat) :
    (blinkLED s times).currentStatus = s.currentStatus := by
  rw [blinkLED_eq]

@[simp] theorem updateStatusLED_currentStatus (s : Station) (t1 t2 : Nat) :
    (updateStatusLED s t1 t2).currentStatus = s.currentStatus := by
  rw [updateStatusLED_eq]

@[simp] theorem readSensors_lastReading (s : Station) (e : SensorEnv) :
    (readSensors s e).1.lastReading = s.lastReading := by
  rw [readSensors_fst]

@[simp] theorem submitReading_lastReading (s : Station) (reading : WeatherReading) (wifiUp : Bool)
    (code : Int) : (submitReading s reading wifiUp code).1.lastReading = s.lastReading := by
  rw [submitReading_fst]

@[simp] theorem blinkLED_lastReading (s : Station) (times : Nat) :
    (blinkLED s times).lastReading = s.lastReading := by
  rw [blinkLED_eq]

@[simp] theorem updateStatusLED_lastReading (s : Station) (t1 t2 : Nat) :
    (updateStatusLED s t1 t2).lastReading = s.lastReading := by
  rw [updateStatusLED_eq]

@[simp] theorem connectToWiFi_lastReading (s : Station) (connected : Bool) :
    (connectToWiFi s connected).1.lastReading = s.lastReading := by
  rw [connectToWiFi_fst]

@[simp] theorem readSensors_lastStatusUpdate (s : Station) (e : SensorEnv) :
    (readSensors s e).1.lastStatusUpdate = s.lastStatusUpdate := by
  rw [readSensors_fst]

@[simp] theorem submitReading_lastStatusUpdate (s : Station) (reading : WeatherReading) (wifiUp : Bool)
    (code : Int) : (submitReading s reading wifiUp code).1.lastStatusUpdate = s.lastStatusUpdate := by
  rw [submitReading_fst]

@[simp] theorem blinkLED_lastStatusUpdate (s : Station) (times : Nat) :
    (blinkLED s times).lastStatusUpdate = s.lastStatusUpdate := by
  rw [blinkLED_eq]

@[simp] theorem updateStatusLED_lastStatusUpdate (s : Station) (t1 t2 : Nat) :
    (updateStatusLED s t1 t2).lastStatusUpdate = s.lastStatusUpdate := by
  rw [updateStatusLED_eq]

@[simp] theorem connectToWiFi_lastStatusUpdate (s : Station) (connected : Bool) :
    (connectToWiFi s connected).1.lastStatusUpdate = s.lastStatusUpdate := by
  rw [connectToWiFi_fst]

@[simp] theorem readSensors_consecutiveFailures (s : Station) (e : SensorEnv) :
    (readSensors s e).1.consecutiveFailures = s.consecutiveFailures := by
  rw [readSensors_fst]

@[simp] theorem submitReading_consecutiveFailures (s : Station) (reading : WeatherReading) (wifiUp : Bool)
    (code : Int) : (submitReading s reading wifiUp code).1.consecutiveFailures = s.consecutiveFailures := by
  rw [submitReading_fst]

@[simp] theorem blinkLED_consecutiveFailures (s : Station) (times : Nat) :
    (blinkLED s times).consecutiveFailures = s.consecutiveFailures := by
  rw [blinkLED_eq]

@[simp] theorem updateStatusLED_consecutiveFailures (s : Station) (t1 t2 : Nat) :
    (updateStatusLED s t1 t2).consecutiveFailures = s.consecutiveFailures := by
  rw [updateStatusLED_eq]

@[simp] theorem connectToWiFi_consecutiveFailures (s : Station) (connected : Bool) :
    (connectToWiFi s connected).1.consecutiveFailures = s.consecutiveFailures := by
  rw [connectToWiFi_fst]

@[simp] theorem readSensors_initialized (s : Station) (e : SensorEnv) :
    (readSensors s e).1.initialized = s.initialized := by
  rw [readSensors_fst]

@[simp] theorem submitReading_initialized (s : Station) (reading : WeatherReading) (wifiUp : Bool)
    (code : Int) : (submitReading s reading wifiUp code).1.initialized = s.initialized := by
  rw [submitReading_fst]

@[simp] theorem blinkLED_initialized (s : Station) (times : Nat) :
    (blinkLED s times).initialized = s.initialized := by
  rw [blinkLED_eq]

@[simp] theorem updateStatusLED_initialized (s : Station) (t1 t2 : Nat) :
    (updateStatusLED s t1 t2).initialized = s.initialized := by
  rw [updateStatusLED_eq]

@[simp] theorem connectToWiFi_initialized (s : Station) (connected : Bool) :
    (connectToWiFi s connected).1.initialized = s.initialized := by
  rw [connectToWiFi_fst]

@[simp] theorem readSensors_lastValidReading (s : Station) (e : SensorEnv) :
    (readSensors s e).1.lastValidReading = s.lastValidReading := by
  rw [readSensors_fst]

@[simp] theorem submitReading_lastValidReading (s : Station) (reading : WeatherReading) (wifiUp : Bool)
    (code : Int) : (submitReading s reading wifiUp code).1.lastValidReading = s.lastValidReading := by
  rw [submitReading_fst]

@[simp] theorem blinkLED_lastValidReading (s : Station) (times : Nat) :
    (blinkLED s times).lastValidReading = s.lastValidReading := by
  rw [blinkLED_eq]

@[simp] theorem updateStatusLED_lastValidReading (s : Station) (t1 t2 : Nat) :
    (updateStatusLED s t1 t2).lastValidReading = s.lastValidReading := by
  rw [updateStatusLED_eq]

@[simp] theorem connectToWiFi_lastValidReading (s : Station) (connected : Bool) :
    (connectToWiFi s connected).1.lastValidReading = s.lastValidReading := by
  rw [connectToWiFi_fst]

@[simp] theorem readSensors_lastBlink (s : Station) (e : SensorEnv) :
    (readSensors s e).1.lastBlink = s.lastBlink := by
  rw [readSensors_fst]

@[simp] theorem submitReading_lastBlink (s : Station) (reading : WeatherReading) (wifiUp : Bool)
    (code : Int) : (submitReading s reading wifiUp code).1.lastBlink = s.lastBlink := by
  rw [submitReading_fst]

@[simp] theorem blinkLED_lastBlink (s : Station) (times : Nat) :
    (blinkLED s times).lastBlink = s.lastBlink := by
  rw [blinkLED_eq]

@[simp] theorem connectToWiFi_lastBlink (s : Station) (connected : Bool) :
    (connectToWiFi s connected).1.lastBlink = s.lastBlink := by
  rw [connectToWiFi_fst]

@[simp] theorem readSensors_ledState (s : Station) (e : SensorEnv) :
    (readSensors s e).1.ledState = s.ledState := by
  rw [readSensors_fst]

@[simp] theorem submitReading_ledState (s : Station) (reading : WeatherReading) (wifiUp : Bool)
    (code : Int) : (submitReading s reading wifiUp code).1.ledState = s.ledState := by
  rw [submitReading_fst]

@[simp] theorem blinkLED_ledState (s : Station) (times : Nat) :
    (blinkLED s times).ledState = s.ledState := by
  rw [blinkLED_eq]

@[simp] theorem connectToWiFi_ledState (s : Station) (connected : Bool) :
    (connectToWiFi s connected).1.ledState = s.ledState := by
  rw [connectToWiFi_fst]

theorem intIncrement_of_lt (counter : Int) (h1 : INT_MIN ≤ counter) (h2 : counter < INT_MAX) :
    intIncrement counter = counter + 1 := by
  simp only [INT_MIN, INT_MAX] at h1 h2
  simp only [intIncrement, int32Wrap]
  omega

/-- How `forceReading` ends on an activated station, by outcome. -/
theorem forceReading_cases (s : Station) (e : CycleEnv) (h : s.initialized = true) :
    (cycleOutcome s e = .connectFailed →
      (forceReading s e).2 = false ∧
      (forceReading s e).1.consecutiveFailures = intIncrement s.consecutiveFailures ∧
      (forceReading s e).1.lastValidReading = s.lastValidReading ∧
      (forceReading s e).1.currentStatus = WS_STATUS_WIFI_FAILED) ∧
    (cycleOutcome s e = .sensorInvalid →
      (forceReading s e).2 = false ∧
      (forceReading s e).1.consecutiveFailures = intIncrement s.consecutiveFailures ∧
      (forceReading s e).1.lastValidReading = s.lastValidReading ∧
      (forceReading s e).1.currentStatus = WS_STATUS_SENSOR_ERROR) ∧
    (cycleOutcome s e = .submitFailed →
      (forceReading s e).2 = false ∧
      (forceReading s e).1.consecutiveFailures = intIncrement s.consecutiveFailures ∧
      (forceReading s e).1.lastValidReading = sensorReading s.config e.sensors ∧
      (forceReading s e).1.currentStatus = WS_STATUS_IDLE) ∧
    (cycleOutcome s e = .submitted →
      (forceReading s e).2 = true ∧
      (forceReading s e).1.consecutiveFailures = 0 ∧
      (forceReading s e).1.lastValidReading = sensorReading s.config e.sensors ∧
      (forceReading s e).1.currentStatus = WS_STATUS_IDLE) := by
  cases hw : e.wifiUp <;> cases hr : e.reconnectOk <;>
    cases hv : (sensorReading s.config e.sensors).isValid <;>
    cases hu : (e.wifiUpAtSubmit && (e.httpResponseCode == 200 || e.httpResponseCode == 429)) <;>
    simp [cycleOutcome, forceReading, h, connectToWiFi_snd,
      readSensors_snd, submitReading_snd, hw, hr, hv, hu]

theorem forceReading_counter (s : Station) (e : CycleEnv) (h : s.initialized = true) :
    (forceReading s e).1.consecutiveFailures =
      if cycleOutcome s e = .submitted then 0 else intIncrement s.consecutiveFailures := by
  obtain ⟨h1, h2, h3, h4⟩ := forceReading_cases s e h
  cases ho : cycleOutcome s e with
  | connectFailed => simpa using (h1 ho).2.1
  | sensorInvalid => simpa using (h2 ho).2.1
  | submitFailed => simpa using (h3 ho).2.1
  | submitted => simpa using (h4 ho).2.1

theorem forceReading_not_initialized (s : Station) (e : CycleEnv)
    (h : s.initialized = false) : forceReading s e = (s, false) := by
  simp [forceReading, h]

@[simp] theorem forceReading_config (s : Station) (e : CycleEnv) :
    (forceReading s e).1.config = s.config := by
  by_cases hi : s.initialized = true
  · simp only [forceReading, hi]
    cases e.wifiUp <;> cases e.reconnectOk <;>
      cases (readSensors _ e.sensors).2.isValid <;>
      cases (submitReading _ _ e.wifiUpAtSubmit e.httpResponseCode).2 <;>
      simp [connectToWiFi_snd, hi]
  · rw [forceReading_not_initialized s e (by simpa using hi)]

@[simp] theorem forceReading_dht (s : Station) (e : CycleEnv) :
    (forceReading s e).1.dht = s.dht := by
  by_cases hi : s.initialized = true
  · simp only [forceReading, hi]
    cases e.wifiUp <;> cases e.reconnectOk <;>
      cases (readSensors _ e.sensors).2.isValid <;>
      cases (submitReading _ _ e.wifiUpAtSubmit e.httpResponseCode).2 <;>
      simp [connectToWiFi_snd, hi]
  · rw [forceReading_not_initialized s e (by simpa using hi)]

@[simp] theorem forceReading_lastReading (s : Station) (e : CycleEnv) :
    (forceReading s e).1.lastReading = s.lastReading := by
  by_cases hi : s.initialized = true
  · simp only [forceReading, hi]
    cases e.wifiUp <;> cases e.reconnectOk <;>
      cases (readSensors _ e.sensors).2.isValid <;>
      cases (submitReading _ _ e.wifiUpAtSubmit e.httpResponseCode).2 <;>
      simp [connectToWiFi_snd, hi]
  · rw [forceReading_not_initialized s e (by simpa using hi)]

@[simp] theorem forceReading_lastStatusUpdate (s : Station) (e : CycleEnv) :
    (forceReading s e).1.lastStatusUpdate = s.lastStatusUpdate := by
  by_cases hi : s.initialized = true
  · simp only [forceReading, hi]
    cases e.wifiUp <;> cases e.reconnectOk <;>
      cases (readSensors _ e.sensors).2.isValid <;>
      cases (submitReading _ _ e.wifiUpAtSubmit e.httpResponseCode).2 <;>
      simp [connectToWiFi_snd, hi]
  · rw [forceReading_not_initialized s e (by simpa using hi)]

@[simp] theorem forceReading_initialized (s : Station) (e : CycleEnv) :
    (forceReading s e).1.initialized = s.initialized := by
  by_cases hi : s.initialized = true
  · simp only [forceReading, hi]
    cases e.wifiUp <;> cases e.reconnectOk <;>
      cases (readSensors _ e.sensors).2.isValid <;>
      cases (submitReading _ _ e.wifiUpAtSubmit e.httpResponseCode).2 <;>
      simp [connectToWiFi_snd, hi]
  · rw [forceReading_not_initialized s e (by simpa using hi)]

@[simp] theorem forceReading_lastBlink (s : Station) (e : CycleEnv) :
    (forceReading s e).1.lastBlink = s.lastBlink := by
  by_cases hi : s.initialized = true
  · simp only [forceReading, hi]
    cases e.wifiUp <;> cases e.reconnectOk <;>
      cases (readSensors _ e.sensors).2.isValid <;>
      cases (submitReading _ _ e.wifiUpAtSubmit e.httpResponseCode).2 <;>
      simp [connectToWiFi_snd, hi]
  · rw [forceReading_not_initialized s e (by simpa using hi)]

@[simp] theorem forceReading_ledState (s : Station) (e : CycleEnv) :
    (forceReading s e).1.ledState = s.ledState := by
  by_cases hi : s.initialized = true
  · simp only [forceReading, hi]
    cases e.wifiUp <;> cases e.reconnectOk <;>
      cases (readSensors _ e.sensors).2.isValid <;>
      cases (submitReading _ _ e.wifiUpAtSubmit e.httpResponseCode).2 <;>
      simp [connectToWiFi_snd, hi]
  · rw [forceReading_not_initialized s e (by simpa using hi)]

/-! ## Lemmas on the tick -/

theorem loop_not_initialized (s : Station) (e : TickEnv) (h : s.initialized = false) :
    loop s e = (s, false) := by
  simp [loop, h]

theorem loop_due (s : Station) (e : TickEnv) (h : s.initialized = true)
    (hd : ulongSub e.currentTime s.lastReading ≥ s.config.readingInterval) :
    loop s e =
      finishTick { (forceReading s e.cycle).1 with lastReading := e.currentTime } e := by
  simp only [loop, finishTick, h, hd]
  rfl

theorem loop_not_due (s : Station) (e : TickEnv) (h : s.initialized = true)
    (hd : ulongSub e.currentTime s.lastReading < s.config.readingInterval) :
    loop s e = finishTick s e := by
  have hd2 : ¬ ulongSub e.currentTime s.lastReading ≥ s.config.readingInterval := not_le.mpr hd
  simp only [loop, finishTick, h, hd2]
  rfl

theorem finishTick_snd (s : Station) (e : TickEnv) :
    (finishTick s e).2 = decide (s.consecutiveFailures ≥ 5) := by
  by_cases h : s.consecutiveFailures ≥ 5 <;> simp [finishTick, h]

theorem finishTick_log (s : Station) (e : TickEnv) :
    (finishTick s e).1.log.filter Event.isCycleEvent = s.log.filter Event.isCycleEvent := by
  by_cases h : s.consecutiveFailures ≥ 5 <;>
    by_cases hb : ulongSub e.ledMillis s.lastBlink > blinkInterval s.currentStatus <;>
    simp [finishTick, h, restart, updateStatusLED, hb, Station.emit, Event.isCycleEvent]

@[simp] theorem finishTick_config (s : Station) (e : TickEnv) :
    (finishTick s e).1.config = s.config := by
  by_cases h : s.consecutiveFailures ≥ 5 <;> simp [finishTick, h, restart, Station.emit]

@[simp] theorem finishTick_dht (s : Station) (e : TickEnv) :
    (finishTick s e).1.dht = s.dht := by
  by_cases h : s.consecutiveFailures ≥ 5 <;> simp [finishTick, h, restart, Station.emit]

@[simp] theorem finishTick_currentStatus (s : Station) (e : TickEnv) :
    (finishTick s e).1.currentStatus = s.currentStatus := by
  by_cases h : s.consecutiveFailures ≥ 5 <;> simp [finishTick, h, restart, Station.emit]

@[simp] theorem finishTick_lastReading (s : Station) (e : TickEnv) :
    (finishTick s e).1.lastReading = s.lastReading := by
  by_cases h : s.consecutiveFailures ≥ 5 <;> simp [finishTick, h, restart, Station.emit]

@[simp] theorem finishTick_lastStatusUpdate (s : Station) (e : TickEnv) :
    (finishTick s e).1.lastStatusUpdate = s.lastStatusUpdate := by
  by_cases h : s.consecutiveFailures ≥ 5 <;> simp [finishTick, h, restart, Station.emit]

@[simp] theorem finishTick_consecutiveFailures (s : Station) (e : TickEnv) :
    (finishTick s e).1.consecutiveFailures = s.consecutiveFailures := by
  by_cases h : s.consecutiveFailures ≥ 5 <;> simp [finishTick, h, restart, Station.emit]

@[simp] theorem finishTick_initialized (s : Station) (e : TickEnv) :
    (finishTick s e).1.initialized = s.initialized := by
  by_cases h : s.consecutiveFailures ≥ 5 <;> simp [finishTick, h, restart, Station.emit]

@[simp] theorem finishTick_lastValidReading (s : Station) (e : TickEnv) :
    (finishTick s e).1.lastValidReading = s.lastValidReading := by
  by_cases h : s.consecutiveFailures ≥ 5 <;> simp [finishTick, h, restart, Station.emit]

theorem loop_eq (s : Station) (e : TickEnv) (h : s.initialized = true) :
    loop s e =
      finishTick (if readingDue s e = true then
        { (forceReading s e.cycle).1 with lastReading := e.currentTime } else s) e := by
  by_cases hd : ulongSub e.currentTime s.lastReading ≥ s.config.readingInterval
  · rw [loop_due s e h hd]
    simp [readingDue, hd]
  · rw [loop_not_due s e h (not_le.mp hd)]
    simp [readingDue, hd]

theorem loop_initialized (s : Station) (e : TickEnv) :
    (loop s e).1.initialized = s.initialized := by
  cases h : s.initialized with
  | false => rw [loop_not_initialized s e h, h]
  | true =>
    rw [loop_eq s e h]
    by_cases hd : readingDue s e = true <;> simp [hd, h]

theorem loop_counter (s : Station) (e : TickEnv) (h : s.initialized = true) :
    (loop s e).1.consecutiveFailures =
      if readingDue s e = true then (forceReading s e.cycle).1.consecutiveFailures
      else s.consecutiveFailures := by
  rw [loop_eq s e h]
  by_cases hd : readingDue s e = true <;> simp [hd]

theorem loop_snd (s : Station) (e : TickEnv) (h : s.initialized = true) :
    (loop s e).2 = decide ((loop s e).1.consecutiveFailures ≥ 5) := by
  rw [loop_eq s e h, finishTick_snd, finishTick_consecutiveFailures]

/-- One tick from an activated state whose counter is in `0..4`. -/
theorem loop_step_invariant (s : Station) (e : TickEnv) (hi : s.initialized = true)
    (h0 : 0 ≤ s.consecutiveFailures) (h5 : s.consecutiveFailures < 5) :
    ((loop s e).2 = true ↔ (loop s e).1.consecutiveFailures = 5) ∧
    0 ≤ (loop s e).1.consecutiveFailures ∧
    (loop s e).1.consecutiveFailures ≤ 5 ∧
    ((loop s e).2 = false → (loop s e).1.consecutiveFailures < 5) := by
  have hc := loop_counter s e hi
  have hf := forceReading_counter s e.cycle hi
  have hs := loop_snd s e hi
  have hb : 0 ≤ (loop s e).1.consecutiveFailures ∧ (loop s e).1.consecutiveFailures ≤ 5 := by
    rw [hc]
    by_cases hd : readingDue s e = true
    · simp only [hd, if_true]
      rw [hf, intIncrement_of_lt _ (by simp only [INT_MIN]; omega)
        (by simp only [INT_MAX]; omega)]
      split_ifs <;> omega
    · simp only [hd]
      simp only [Bool.false_eq_true, if_false]
      omega
  rw [hs]
  simp only [decide_eq_true_eq, decide_eq_false_iff_not]
  omega

theorem tickTrace_invariant (es : List TickEnv) :
    ∀ s : Station, s.initialized = true → 0 ≤ s.consecutiveFailures →
      s.consecutiveFailures < 5 →
      (∀ p ∈ tickTrace s es,
        (p.2 = true ↔ p.1.consecutiveFailures = 5) ∧ 0 ≤ p.1.consecutiveFailures ∧
          p.1.consecutiveFailures ≤ 5) ∧
      (∀ p ∈ (tickTrace s es).dropLast, p.2 = false ∧ p.1.consecutiveFailures < 5) := by
  induction es with
  | nil =>
    intro s _ _ _
    simp [tickTrace]
  | cons e es ih =>
    intro s hi h0 h5
    obtain ⟨a, b, c, d⟩ := loop_step_invariant s e hi h0 h5
    by_cases hr : (loop s e).2 = true
    · simp only [tickTrace, hr, if_true]
      refine ⟨?_, ?_⟩
      · intro p hp
        simp only [List.mem_singleton] at hp
        subst hp
        exact ⟨a, b, c⟩
      · intro p hp
        simp at hp
    · have hr2 : (loop s e).2 = false := by simpa using hr
      obtain ⟨ih1, ih2⟩ := ih (loop s e).1 (by rw [loop_initialized, hi]) b (d hr2)
      simp only [tickTrace, hr2, Bool.false_eq_true, if_false]
      refine ⟨?_, ?_⟩
      · intro p hp
        rcases List.mem_cons.mp hp with hp | hp
        · subst hp
          exact ⟨a, b, c⟩
        · exact ih1 p hp
      · intro p hp
        cases ht : tickTrace (loop s e).1 es with
        | nil =>
          rw [ht] at hp
          simp at hp
        | cons q qs =>
          rw [ht, List.dropLast_cons₂] at hp
          rcases List.mem_cons.mp hp with hp | hp
          · subst hp
            exact ⟨hr2, d hr2⟩
          · rw [ht] at ih2
            exact ih2 p hp

theorem loop_due_sensorInvalid (s : Station) (e : TickEnv) (hi : s.initialized = true)
    (hd : readingDue s e = true) (ho : cycleOutcome s e.cycle = .sensorInvalid)
    (h0 : 0 ≤ s.consecutiveFailures) (h5 : s.consecutiveFailures < 5) :
    (loop s e).1.consecutiveFailures = s.consecutiveFailures + 1 ∧
    (loop s e).2 = decide (s.consecutiveFailures + 1 ≥ 5) ∧
    (loop s e).1.initialized = true := by
  have hc := loop_counter s e hi
  have hf := forceReading_counter s e.cycle hi
  simp only [hd, if_true] at hc
  rw [ho, intIncrement_of_lt _ (by simp only [INT_MIN]; omega)
    (by simp only [INT_MAX]; omega)] at hf
  simp only [reduceCtorEq, if_false] at hf
  refine ⟨hc.trans hf, ?_, ?_⟩
  · rw [loop_snd s e hi, hc, hf]
  · rw [loop_initialized, hi]

theorem cycleCounters_eq_specCounters (es : List CycleEnv) :
    ∀ s : Station, s.initialized = true → 0 ≤ s.consecutiveFailures →
      s.consecutiveFailures + es.length ≤ INT_MAX →
      cycleCounters s es = specCounters s.consecutiveFailures (cycleOutcomes s es) := by
  induction es with
  | nil =>
    intro s _ _ _
    rfl
  | cons e es ih =>
    intro s hi h0 hmax
    simp only [List.length_cons, Nat.cast_add, Nat.cast_one, INT_MAX] at hmax
    have hf := forceReading_counter s e hi
    rw [intIncrement_of_lt _ (by simp only [INT_MIN]; omega)
      (by simp only [INT_MAX]; omega)] at hf
    have hn : (forceReading s e).1.consecutiveFailures =
        specNextCounter s.consecutiveFailures (cycleOutcome s e) := by
      rw [hf]
      cases cycleOutcome s e <;> simp [specNextCounter]
    have hb : 0 ≤ (forceReading s e).1.consecutiveFailures ∧
        (forceReading s e).1.consecutiveFailures ≤ s.consecutiveFailures + 1 := by
      rw [hf]
      split_ifs <;> omega
    simp only [cycleCounters, cycleOutcomes, specCounters]
    rw [ih (forceReading s e).1 (by rw [forceReading_initialized, hi]) hb.1
      (by simp only [INT_MAX]; omega), hn]

/-- What each cycle outcome means in terms of the collaborators' answers. -/
theorem cycleOutcome_iff (s : Station) (e : CycleEnv) :
    (cycleOutcome s e = .connectFailed ↔ e.wifiUp = false ∧ e.reconnectOk = false) ∧
    (cycleOutcome s e = .sensorInvalid ↔
      (e.wifiUp = true ∨ e.reconnectOk = true) ∧ (readSensors s e.sensors).2.isValid = false) ∧
    (cycleOutcome s e = .submitFailed ↔
      (e.wifiUp = true ∨ e.reconnectOk = true) ∧ (readSensors s e.sensors).2.isValid = true ∧
      (submitReading s (readSensors s e.sensors).2 e.wifiUpAtSubmit
        e.httpResponseCode).2 = false) ∧
    (cycleOutcome s e = .submitted ↔
      (e.wifiUp = true ∨ e.reconnectOk = true) ∧ (readSensors s e.sensors).2.isValid = true ∧
      (submitReading s (readSensors s e.sensors).2 e.wifiUpAtSubmit
        e.httpResponseCode).2 = true) := by
  simp only [cycleOutcome, connectToWiFi_snd]
  cases e.wifiUp <;> cases e.reconnectOk <;>
    cases (readSensors s e.sensors).2.isValid <;>
    cases (submitReading s (readSensors s e.sensors).2 e.wifiUpAtSubmit
        e.httpResponseCode).2 <;>
    simp

/-! ## The concrete inputs evaluated -/

theorem sensorReading_goodSensorEnv (config : WeatherStationConfig)
    (hv : config.windVoltageMax = Flt.round32 (.fin (33 / 10)))
    (hm : config.windSpeedMaxMPH = Flt.round32 (.fin (324 / 10))) :
    (sensorReading config goodSensorEnv).isValid = true := by
  have hs := readSensors_isValid_spec { construct with config := config } goodSensorEnv
  have hn : goodSensorEnv.tempC.isnan = false ∧ goodSensorEnv.humidity.isnan = false :=
    ⟨rfl, rfl⟩
  obtain ⟨ht, hh, hw⟩ := hs.2.2 hn
  rw [sensorReading, hs.1, ht, hh, hw]
  refine ⟨rfl, rfl, ?_, ?_, ?_⟩
  · show isValidTemperature (celsiusToFahrenheit (.fin 20)) = true
    rw [celsiusToFahrenheit_fin]
    exact (Flt.range_check_iff _ _ _).2 ⟨_, rfl, by norm_num, by norm_num⟩
  · exact (Flt.range_check_iff _ _ _).2 ⟨50, rfl, by norm_num, by norm_num⟩
  · show isValidWindSpeed (windSpeedOf config 4095) = true
    rw [windSpeedOf_default_fullScale config (hv.trans round32_literal_3_3)
      (hm.trans round32_literal_32_4)]
    exact (Flt.range_check_iff _ _ _).2 ⟨_, rfl, by norm_num, by norm_num⟩

theorem cycleOutcome_submitFailCycle (s : Station)
    (hv : s.config.windVoltageMax = Flt.round32 (.fin (33 / 10)))
    (hm : s.config.windSpeedMaxMPH = Flt.round32 (.fin (324 / 10))) :
    cycleOutcome s submitFailCycle = .submitFailed := by
  refine (cycleOutcome_iff s submitFailCycle).2.2.1.2 ⟨Or.inl rfl, ?_, ?_⟩
  · rw [readSensors_snd]
    exact sensorReading_goodSensorEnv s.config hv hm
  · rw [submitReading_snd]
    rfl

theorem cycleOutcome_submitOkCycle (s : Station)
    (hv : s.config.windVoltageMax = Flt.round32 (.fin (33 / 10)))
    (hm : s.config.windSpeedMaxMPH = Flt.round32 (.fin (324 / 10))) :
    cycleOutcome s submitOkCycle = .submitted := by
  refine (cycleOutcome_iff s submitOkCycle).2.2.2.2 ⟨Or.inl rfl, ?_, ?_⟩
  · rw [readSensors_snd]
    exact sensorReading_goodSensorEnv s.config hv hm
  · rw [submitReading_snd]
    rfl

theorem cycleOutcome_sensorFailCycle (s : Station) :
    cycleOutcome s sensorFailCycle = .sensorInvalid := by
  refine (cycleOutcome_iff s sensorFailCycle).2.1.2 ⟨Or.inl rfl, ?_⟩
  exact (readSensors_isValid_spec s nanSensorEnv).2.1 (Or.inl rfl)

theorem tickTrace_five_sensor_failures (s0 : Station) (e1 e2 e3 e4 e5 : TickEnv)
    (hi : s0.initialized = true) (h0 : s0.consecutiveFailures = 0)
    (ha : allDueSensorFailures s0 [e1, e2, e3, e4, e5] = true) :
    (tickTrace s0 [e1, e2, e3, e4, e5]).map Prod.snd = [false, false, false, false, true] := by
  simp only [allDueSensorFailures, Bool.and_eq_true, decide_eq_true_eq, and_true] at ha
  obtain ⟨⟨d1, o1⟩, ⟨d2, o2⟩, ⟨d3, o3⟩, ⟨d4, o4⟩, d5, o5⟩ := ha
  obtain ⟨c1, f1, i1⟩ := loop_due_sensorInvalid s0 e1 hi d1 o1 (by omega) (by omega)
  rw [h0] at c1
  obtain ⟨c2, f2, i2⟩ := loop_due_sensorInvalid _ e2 i1 d2 o2 (by omega) (by omega)
  rw [c1] at c2
  obtain ⟨c3, f3, i3⟩ := loop_due_sensorInvalid _ e3 i2 d3 o3 (by omega) (by omega)
  rw [c2] at c3
  obtain ⟨c4, f4, i4⟩ := loop_due_sensorInvalid _ e4 i3 d4 o4 (by omega) (by omega)
  rw [c3] at c4
  obtain ⟨c5, f5, -⟩ := loop_due_sensorInvalid _ e5 i4 d5 o5 (by omega) (by omega)
  rw [h0] at f1
  rw [c1] at f2
  rw [c2] at f3
  rw [c3] at f4
  rw [c4] at f5
  have g1 : (loop s0 e1).2 = false := by rw [f1]; decide
  have g2 : (loop (loop s0 e1).1 e2).2 = false := by rw [f2]; decide
  have g3 : (loop (loop (loop s0 e1).1 e2).1 e3).2 = false := by rw [f3]; decide
  have g4 : (loop (loop (loop (loop s0 e1).1 e2).1 e3).1 e4).2 = false := by rw [f4]; decide
  have g5 : (loop (loop (loop (loop (loop s0 e1).1 e2).1 e3).1 e4).1 e5).2 = true := by
    rw [f5]; decide
  simp [tickTrace, g1, g2, g3, g4, g5]

/-! ## The last-known-good reading -/

/-- A reading is in range: finite fields with temperature in `[-40, 140]`,
humidity in `[0, 100]` and wind speed in `[0, 200]`. -/
theorem valid_reading_in_range (r : WeatherReading)
    (h : isValidTemperature r.temperature = true ∧ isValidHumidity r.humidity = true ∧
      isValidWindSpeed r.windSpeed = true) :
    ∃ t h w : ℚ, r.temperature = .fin t ∧ r.humidity = .fin h ∧ r.windSpeed = .fin w ∧
      -40 ≤ t ∧ t ≤ 140 ∧ 0 ≤ h ∧ h ≤ 100 ∧ 0 ≤ w ∧ w ≤ 200 := by
  obtain ⟨h1, h2, h3⟩ := h
  obtain ⟨t, ht, t1, t2⟩ := (Flt.range_check_iff _ _ _).1 h1
  obtain ⟨u, hu, u1, u2⟩ := (Flt.range_check_iff _ _ _).1 h2
  obtain ⟨w, hw, w1, w2⟩ := (Flt.range_check_iff _ _ _).1 h3
  exact ⟨t, u, w, ht, hu, hw, t1, t2, u1, u2, w1, w2⟩

theorem forceReading_lastValidReading (s : Station) (e : CycleEnv) :
    (forceReading s e).1.lastValidReading = s.lastValidReading ∨
    ((readSensors s e.sensors).2.isValid = true ∧
      (forceReading s e).1.lastValidReading = (readSensors s e.sensors).2) := by
  by_cases hi : s.initialized = true
  · obtain ⟨h1, h2, h3, h4⟩ := forceReading_cases s e hi
    obtain ⟨-, -, k3, k4⟩ := cycleOutcome_iff s e
    cases ho : cycleOutcome s e with
    | connectFailed => exact Or.inl (h1 ho).2.2.1
    | sensorInvalid => exact Or.inl (h2 ho).2.2.1
    | submitFailed =>
      refine Or.inr ⟨(k3.1 ho).2.1, ?_⟩
      rw [readSensors_snd]
      exact (h3 ho).2.2.1
    | submitted =>
      refine Or.inr ⟨(k4.1 ho).2.1, ?_⟩
      rw [readSensors_snd]
      exact (h4 ho).2.2.1
  · rw [forceReading_not_initialized s e (by simpa using hi)]
    exact Or.inl rfl

theorem loop_lastValidReading (s : Station) (e : TickEnv) :
    (loop s e).1.lastValidReading = s.lastValidReading ∨
    (loop s e).1.lastValidReading = (forceReading s e.cycle).1.lastValidReading := by
  cases hi : s.initialized with
  | false =>
    rw [loop_not_initialized s e hi]
    exact Or.inl rfl
  | true =>
    rw [loop_eq s e hi]
    by_cases hd : readingDue s e = true
    · right
      simp [hd]
    · left
      simp [hd]

theorem begin_lastValidReading (s : Station) (e : BeginEnv) :
    (begin s e).1.lastValidReading = s.lastValidReading := by
  simp only [begin, initializeHardware, Station.emit]
  split_ifs <;> simp

theorem testSensors_lastValidReading (s : Station) (e : SensorEnv) :
    (testSensors s e).1.lastValidReading = s.lastValidReading := by
  simp [testSensors]

/-- The invariant of the last-known-good reading. -/
theorem lastValidReading_invariant_step (s : Station) (c : Call)
    (h : s.lastValidReading = construct.lastValidReading ∨
      (s.lastValidReading.isValid = true ∧
        isValidTemperature s.lastValidReading.temperature = true ∧
        isValidHumidity s.lastValidReading.humidity = true ∧
        isValidWindSpeed s.lastValidReading.windSpeed = true)) :
    (Call.run s c).lastValidReading = construct.lastValidReading ∨
      ((Call.run s c).lastValidReading.isValid = true ∧
        isValidTemperature (Call.run s c).lastValidReading.temperature = true ∧
        isValidHumidity (Call.run s c).lastValidReading.humidity = true ∧
        isValidWindSpeed (Call.run s c).lastValidReading.windSpeed = true) := by
  have hforce : ∀ e : CycleEnv,
      (forceReading s e).1.lastValidReading = construct.lastValidReading ∨
      ((forceReading s e).1.lastValidReading.isValid = true ∧
        isValidTemperature (forceReading s e).1.lastValidReading.temperature = true ∧
        isValidHumidity (forceReading s e).1.lastValidReading.humidity = true ∧
        isValidWindSpeed (forceReading s e).1.lastValidReading.windSpeed = true) := by
    intro e
    rcases forceReading_lastValidReading s e with hf | ⟨hv, hf⟩
    · rw [hf]
      exact h
    · rw [hf]
      right
      have := (readSensors_isValid_spec s e.sensors).1.1 hv
      exact ⟨hv, this.2.2⟩
  have keep : ∀ t : Station, t.lastValidReading = s.lastValidReading →
      (t.lastValidReading = construct.lastValidReading ∨
        (t.lastValidReading.isValid = true ∧
          isValidTemperature t.lastValidReading.temperature = true ∧
          isValidHumidity t.lastValidReading.humidity = true ∧
          isValidWindSpeed t.lastValidReading.windSpeed = true)) := by
    intro t ht
    rw [ht]
    exact h
  cases c with
  | setWiFiCredentials _ _ => exact h
  | setStationCredentials _ _ => exact h
  | setAPIURL _ => exact h
  | setDHTPin _ _ => exact h
  | setStatusLEDPin _ => exact h
  | setWindPin _ => exact h
  | setReadingInterval _ => exact h
  | setWindCalibration _ _ => exact h
  | setTimeouts _ _ => exact h
  | begin e =>
    exact keep _ (begin_lastValidReading s e)
  | loop e =>
    by_cases hr : (loop s e).2 = true
    · left
      simp [Call.run, hr, reboot]
    · simp only [Call.run, hr]
      simp only [Bool.false_eq_true, if_false]
      rcases loop_lastValidReading s e with hl | hl
      · rw [hl]
        exact h
      · rw [hl]
        exact hforce e.cycle
  | forceReading e => exact hforce e
  | testSensors e =>
    exact keep _ (testSensors_lastValidReading s e)
  | restart =>
    left
    rfl

theorem lastValidReading_invariant (calls : List Call) :
    ∀ s : Station,
      (s.lastValidReading = construct.lastValidReading ∨
        (s.lastValidReading.isValid = true ∧
          isValidTemperature s.lastValidReading.temperature = true ∧
          isValidHumidity s.lastValidReading.humidity = true ∧
          isValidWindSpeed s.lastValidReading.windSpeed = true)) →
      ((runCalls s calls).lastValidReading = construct.lastValidReading ∨
        ((runCalls s calls).lastValidReading.isValid = true ∧
          isValidTemperature (runCalls s calls).lastValidReading.temperature = true ∧
          isValidHumidity (runCalls s calls).lastValidReading.humidity = true ∧
          isValidWindSpeed (runCalls s calls).lastValidReading.windSpeed = true)) := by
  induction calls with
  | nil =>
    intro s h
    exact h
  | cons c cs ih =>
    intro s h
    exact ih (Call.run s c) (lastValidReading_invariant_step s c h)

/-! ## Lemmas on activation -/

theorem initializeHardware_snd (s : Station) (testTemp : Flt) :
    (initializeHardware s testTemp).2 = !testTemp.isnan := by
  cases h : testTemp.isnan <;> simp [initializeHardware, h]

theorem begin_guard (s : Station) (e : BeginEnv)
    (h : s.config.wifiSSID = none ∨ s.config.wifiPassword = none ∨
      s.config.stationID = 0 ∨ s.config.passkey = none) :
    begin s e = (s, false) := by
  by_cases h1 : (s.config.wifiSSID.isNone || s.config.wifiPassword.isNone) = true
  · simp only [begin, h1, if_true]
  · by_cases h2 : (s.config.stationID == 0 || s.config.passkey.isNone) = true
    · simp only [begin, h1, h2, if_true]
      simp
    · exfalso
      simp only [Bool.or_eq_true, Option.isNone_iff_eq_none, beq_iff_eq, not_or] at h1 h2
      rcases h with h | h | h | h
      · exact h1.1 h
      · exact h1.2 h
      · exact h2.1 h
      · exact h2.2 h

theorem begin_run (s : Station) (e : BeginEnv)
    (h1 : s.config.wifiSSID ≠ none) (h2 : s.config.wifiPassword ≠ none)
    (h3 : s.config.stationID ≠ 0) (h4 : s.config.passkey ≠ none) :
    begin s e =
      if e.testTemp.isnan = true then ((initializeHardware s e.testTemp).1, false)
      else if e.wifiOk = true then
        ({ (connectToWiFi { (initializeHardware s e.testTemp).1 with
              currentStatus := WS_STATUS_WIFI_CONNECTING } e.wifiOk).1 with
            currentStatus := WS_STATUS_IDLE, initialized := true }, true)
      else
        ({ (connectToWiFi { (initializeHardware s e.testTemp).1 with
              currentStatus := WS_STATUS_WIFI_CONNECTING } e.wifiOk).1 with
            currentStatus := WS_STATUS_WIFI_FAILED }, false) := by
  have g1 : (s.config.wifiSSID.isNone || s.config.wifiPassword.isNone) = false := by
    simp [Option.isSome_iff_ne_none, h1, h2]
  have g2 : (s.config.stationID == 0 || s.config.passkey.isNone) = false := by
    simp [Option.isSome_iff_ne_none, h3, h4]
  simp only [begin, g1, g2, initializeHardware_snd, connectToWiFi_snd]
  cases e.testTemp.isnan <;> cases e.wifiOk <;> simp

theorem initializeHardware_initialized (s : Station) (testTemp : Flt) :
    (initializeHardware s testTemp).1.initialized = s.initialized := by
  cases h : testTemp.isnan <;> simp [initializeHardware, h, Station.emit]

theorem initializeHardware_currentStatus (s : Station) (testTemp : Flt) :
    (initializeHardware s testTemp).1.currentStatus = s.currentStatus := by
  cases h : testTemp.isnan <;> simp [initializeHardware, h, Station.emit]

theorem initializeHardware_log (s : Station) (testTemp : Flt) :
    (initializeHardware s testTemp).1.log =
      s.log ++ ([.pinModeOutput s.config.statusLedPin,
        .digitalWrite s.config.statusLedPin false,
        .dhtBegin s.config.dhtPin s.config.dhtType, .dhtReadTemperature] ++
        if testTemp.isnan = true then [] else [.adcSetup]) := by
  cases h : testTemp.isnan <;> simp [initializeHardware, h, Station.emit]

/-! ## Claims -/

/-- C5. The validation predicates are closed intervals with inclusive
boundaries: `isValidTemperature t` holds exactly for the finite values with
`-40 <= t <= 140`, `isValidHumidity h` exactly for `0 <= h <= 100` and
`isValidWindSpeed w` exactly for `0 <= w <= 200`; each is true at both of its
boundaries and false at every value strictly outside them. -/
theorem validation_predicates_closed_intervals :
    (∀ t : Flt, isValidTemperature t = true ↔ ∃ q : ℚ, t = .fin q ∧ -40 ≤ q ∧ q ≤ 140) ∧
    (∀ h : Flt, isValidHumidity h = true ↔ ∃ q : ℚ, h = .fin q ∧ 0 ≤ q ∧ q ≤ 100) ∧
    (∀ w : Flt, isValidWindSpeed w = true ↔ ∃ q : ℚ, w = .fin q ∧ 0 ≤ q ∧ q ≤ 200) ∧
    (isValidTemperature (.fin (-40)) = true ∧ isValidTemperature (.fin 140) = true) ∧
    (isValidHumidity (.fin 0) = true ∧ isValidHumidity (.fin 100) = true) ∧
    (isValidWindSpeed (.fin 0) = true ∧ isValidWindSpeed (.fin 200) = true) ∧
    (∀ d : ℚ, 0 < d →
      isValidTemperature (.fin (-40 - d)) = false ∧
      isValidTemperature (.fin (140 + d)) = false ∧
      isValidHumidity (.fin (0 - d)) = false ∧
      isValidHumidity (.fin (100 + d)) = false ∧
      isValidWindSpeed (.fin (0 - d)) = false ∧
      isValidWindSpeed (.fin (200 + d)) = false) := by
  have hT : ∀ t : Flt, isValidTemperature t = true ↔
      ∃ q : ℚ, t = .fin q ∧ -40 ≤ q ∧ q ≤ 140 := fun t => Flt.range_check_iff t _ _
  have hH : ∀ h : Flt, isValidHumidity h = true ↔
      ∃ q : ℚ, h = .fin q ∧ 0 ≤ q ∧ q ≤ 100 := fun h => Flt.range_check_iff h _ _
  have hW : ∀ w : Flt, isValidWindSpeed w = true ↔
      ∃ q : ℚ, w = .fin q ∧ 0 ≤ q ∧ q ≤ 200 := fun w => Flt.range_check_iff w _ _
  have inside : ∀ (f : Flt → Bool) (a b : ℚ),
      (∀ t : Flt, f t = true ↔ ∃ q : ℚ, t = .fin q ∧ a ≤ q ∧ q ≤ b) →
      ∀ q : ℚ, a ≤ q → q ≤ b → f (.fin q) = true :=
    fun f a b h q h1 h2 => (h _).2 ⟨q, rfl, h1, h2⟩
  have outside : ∀ (f : Flt → Bool) (a b : ℚ),
      (∀ t : Flt, f t = true ↔ ∃ q : ℚ, t = .fin q ∧ a ≤ q ∧ q ≤ b) →
      ∀ q : ℚ, (q < a ∨ b < q) → f (.fin q) = false := by
    intro f a b h q hq
    cases hf : f (.fin q) with
    | false => rfl
    | true =>
      obtain ⟨r, hr, h1, h2⟩ := (h _).1 hf
      have : q = r := by injection hr
      subst this
      rcases hq with hq | hq
      · exact absurd h1 (not_le.mpr hq)
      · exact absurd h2 (not_le.mpr hq)
  refine ⟨hT, hH, hW, ⟨?_, ?_⟩, ⟨?_, ?_⟩, ⟨?_, ?_⟩, ?_⟩
  · exact inside _ _ _ hT _ (by norm_num) (by norm_num)
  · exact inside _ _ _ hT _ (by norm_num) (by norm_num)
  · exact inside _ _ _ hH _ (by norm_num) (by norm_num)
  · exact inside _ _ _ hH _ (by norm_num) (by norm_num)
  · exact inside _ _ _ hW _ (by norm_num) (by norm_num)
  · exact inside _ _ _ hW _ (by norm_num) (by norm_num)
  · intro d hd
    refine ⟨?_, ?_, ?_, ?_, ?_, ?_⟩
    · exact outside _ _ _ hT _ (Or.inl (by linarith))
    · exact outside _ _ _ hT _ (Or.inr (by linarith))
    · exact outside _ _ _ hH _ (Or.inl (by linarith))
    · exact outside _ _ _ hH _ (Or.inr (by linarith))
    · exact outside _ _ _ hW _ (Or.inl (by linarith))
    · exact outside _ _ _ hW _ (Or.inr (by linarith))

/-- Witness for `validation_predicates_closed_intervals`: one unit outside each
boundary every predicate is false. -/
theorem validation_predicates_closed_intervals_witness :
    (0 : ℚ) < 1 ∧
    isValidTemperature (.fin (-40 - 1)) = false ∧
    isValidTemperature (.fin (140 + 1)) = false ∧
    isValidHumidity (.fin (0 - 1)) = false ∧
    isValidHumidity (.fin (100 + 1)) = false ∧
    isValidWindSpeed (.fin (0 - 1)) = false ∧
    isValidWindSpeed (.fin (200 + 1)) = false :=
  ⟨by norm_num, validation_predicates_closed_intervals.2.2.2.2.2.2 1 (by norm_num)⟩

/-- C9. In exact arithmetic `celsiusToFahrenheit c = c*9/5 + 32`, the two
conversions are inverse to each other in both orders (on every value,
finite or not), and 20.0 Celsius is reported as 68.0 Fahrenheit, which passes
`isValidTemperature`. -/
theorem temperature_conversion_roundtrip :
    (∀ c : ℚ, celsiusToFahrenheit (.fin c) = .fin (c * 9 / 5 + 32)) ∧
    (∀ c : Flt, fahrenheitToCelsius (celsiusToFahrenheit c) = c) ∧
    (∀ f : Flt, celsiusToFahrenheit (fahrenheitToCelsius f) = f) ∧
    celsiusToFahrenheit (.fin 20) = .fin 68 ∧
    isValidTemperature (celsiusToFahrenheit (.fin 20)) = true := by
  refine ⟨celsiusToFahrenheit_fin, ?_, ?_, ?_, ?_⟩
  · intro c
    cases c with
    | nan => rfl
    | negInf =>
      simp [celsiusToFahrenheit, fahrenheitToCelsius, Flt.mul, Flt.div, Flt.add, Flt.sub,
        Flt.infMul, Flt.infDiv, Flt.inf]
    | posInf =>
      simp [celsiusToFahrenheit, fahrenheitToCelsius, Flt.mul, Flt.div, Flt.add, Flt.sub,
        Flt.infMul, Flt.infDiv, Flt.inf]
    | fin q =>
      rw [celsiusToFahrenheit_fin, fahrenheitToCelsius_fin]
      congr 1
      ring
  · intro f
    cases f with
    | nan => rfl
    | negInf =>
      simp [celsiusToFahrenheit, fahrenheitToCelsius, Flt.mul, Flt.div, Flt.add, Flt.sub,
        Flt.infMul, Flt.infDiv, Flt.inf]
    | posInf =>
      simp [celsiusToFahrenheit, fahrenheitToCelsius, Flt.mul, Flt.div, Flt.add, Flt.sub,
        Flt.infMul, Flt.infDiv, Flt.inf]
    | fin q =>
      rw [fahrenheitToCelsius_fin, celsiusToFahrenheit_fin]
      congr 1
      ring
  · rw [celsiusToFahrenheit_fin]
    norm_num
  · rw [celsiusToFahrenheit_fin]
    exact (Flt.range_check_iff _ _ _).2 ⟨_, rfl, by norm_num, by norm_num⟩

/-- C3. `submitReading` returns success exactly when the link is connected and
the response code is 200 or 429; every other code, the zero and negative
transport-error codes included, gives failure; with the link down it returns
failure and issues no request (the station, its log included, is unchanged),
and with the link up it issues exactly one POST. -/
theorem submitReading_success_iff (s : Station) (reading : WeatherReading)
    (wifiUp : Bool) (code : Int) :
    ((submitReading s reading wifiUp code).2 = true ↔
      wifiUp = true ∧ (code = 200 ∨ code = 429)) ∧
    (code ≤ 0 → (submitReading s reading wifiUp code).2 = false) ∧
    (wifiUp = false → submitReading s reading wifiUp code = (s, false)) ∧
    (wifiUp = true →
      (submitReading s reading wifiUp code).1.log =
        s.log ++ [.httpPost s.config.apiURL s.config.httpTimeout
          { station_id := s.config.stationID, passkey := s.config.passkey,
            temperature := reading.temperature, humidity := reading.humidity,
            wind_speed := reading.windSpeed }]) := by
  refine ⟨?_, ?_, ?_, ?_⟩
  · cases wifiUp with
    | false => simp [submitReading]
    | true =>
      by_cases hpos : code > 0
      · simp [submitReading, hpos]
      · have h200 : code ≠ 200 := by omega
        have h429 : code ≠ 429 := by omega
        simp [submitReading, hpos, h200, h429]
  · intro hle
    have hpos : ¬ code > 0 := by omega
    cases wifiUp <;> simp [submitReading, hpos]
  · intro h
    simp [submitReading, h]
  · intro h
    by_cases hpos : code > 0 <;> simp [submitReading, h, hpos, Station.emit]

/-- Witness for `submitReading_success_iff`: with the link down nothing is
sent and the call fails, and with the link up a 429 answer is a success. -/
theorem submitReading_success_iff_witness :
    submitReading construct construct.lastValidReading false 200 = (construct, false) ∧
    (submitReading construct construct.lastValidReading true 429).2 = true :=
  ⟨(submitReading_success_iff construct construct.lastValidReading false 200).2.2.1 rfl,
    (submitReading_success_iff construct construct.lastValidReading true 429).1.2
      ⟨rfl, Or.inr rfl⟩⟩

/-- C4, counterexample. When the DHT driver returns NaN, `readSensors` returns
early with `isValid = false` and never assigns the three measured fields; on
`nanSensorEnv` all three predicates hold of the returned fields although
`isValid` is false, so the equivalence fails. -/
theorem readSensors_nan_not_iff :
    ¬ ((readSensors construct nanSensorEnv).2.isValid = true ↔
        (isValidTemperature (readSensors construct nanSensorEnv).2.temperature = true ∧
         isValidHumidity (readSensors construct nanSensorEnv).2.humidity = true ∧
         isValidWindSpeed (readSensors construct nanSensorEnv).2.windSpeed = true)) := by
  simp [readSensors, nanSensorEnv, Flt.isnan, isValidTemperature, isValidHumidity,
    isValidWindSpeed, Flt.ge, Flt.le]

/-- C4, amended. For every reading returned by `readSensors`, `isValid` is
true exactly when neither DHT value is NaN and all three range predicates
hold on the fields of that reading; so whenever `isValid` is true the three
predicates hold, and when both DHT values are numbers any single failing
field forces `isValid = false`. When a DHT value is NaN the reading is
invalid. -/
theorem readSensors_isValid_iff (s : Station) (e : SensorEnv) :
    ((readSensors s e).2.isValid = true ↔
      e.tempC.isnan = false ∧ e.humidity.isnan = false ∧
      isValidTemperature (readSensors s e).2.temperature = true ∧
      isValidHumidity (readSensors s e).2.humidity = true ∧
      isValidWindSpeed (readSensors s e).2.windSpeed = true) ∧
    (e.tempC.isnan = true ∨ e.humidity.isnan = true →
      (readSensors s e).2.isValid = false) ∧
    (e.tempC.isnan = false ∧ e.humidity.isnan = false →
      (readSensors s e).2.temperature = celsiusToFahrenheit e.tempC ∧
      (readSensors s e).2.humidity = e.humidity ∧
      (readSensors s e).2.windSpeed = windSpeedOf s.config e.adcValue) :=
  readSensors_isValid_spec s e

/-- Witness for `readSensors_isValid_iff`: a NaN temperature gives an invalid
reading. -/
theorem readSensors_isValid_iff_witness :
    nanSensorEnv.tempC.isnan = true ∧
    (readSensors construct nanSensorEnv).2.isValid = false :=
  ⟨rfl, (readSensors_isValid_iff construct nanSensorEnv).2.1 (Or.inl rfl)⟩

/-- C7, counterexample. The computed wind speed is not `(raw / 4095) * maxSpeed`
on calibration pairs that `setWindCalibration` accepts. With reference voltage
0 and max speed 32.4 the count 4095 gives NaN; with reference voltage 7 and
max speed 31 the count 4095 gives `31 - 2^-19`, not 31, because the quotient
`31 / 7` is rounded; with reference voltage `2^-100` and max speed `2^100` the
quotient overflows and the count 0 gives NaN, not 0. -/
theorem readWindSpeed_not_exact_scaling :
    (readWindSpeed (setWindCalibration construct (.fin 0) (.fin (4246733 / 131072)))
      4095).2 = .nan ∧
    ((readWindSpeed (setWindCalibration construct (.fin 7) (.fin 31)) 4095).2 =
        .fin (16252927 / 524288) ∧
      (readWindSpeed (setWindCalibration construct (.fin 7) (.fin 31)) 4095).2 ≠
        .fin ((4095 : ℚ) / 4095 * 31)) ∧
    ((readWindSpeed (setWindCalibration construct (.fin (1 / 2 ^ 100)) (.fin (2 ^ 100)))
        0).2 = .nan ∧
      (readWindSpeed (setWindCalibration construct (.fin (1 / 2 ^ 100)) (.fin (2 ^ 100)))
        0).2 ≠ .fin ((0 : ℚ) / 4095 * 2 ^ 100)) := by
  have h7 : (readWindSpeed (setWindCalibration construct (.fin 7) (.fin 31)) 4095).2 =
      .fin (16252927 / 524288) := windSpeedOf_7_31_fullScale _ rfl rfl
  have ho : (readWindSpeed (setWindCalibration construct (.fin (1 / 2 ^ 100))
      (.fin (2 ^ 100))) 0).2 = .nan := windSpeedOf_overflow _ rfl rfl
  refine ⟨windSpeedOf_zero_voltage _ 4095 _ rfl rfl (by norm_num), ⟨h7, ?_⟩, ho, ?_⟩
  · rw [h7]
    intro h
    injection h with h
    norm_num at h
  · rw [ho]
    intro h
    cases h

/-- C7, amended. For every raw ADC count in `0..4095` and every calibration
pair whose reference voltage and max speed are finite with magnitudes between
`2^-60` and `2^60`, the wind speed computed by `readWindSpeed` is finite and
equals `(raw / 4095) * maxSpeed` up to a relative error of at most `2^-21`;
with raw count 4095, reference voltage 3.3 and max speed 32.4 (as `float`
values) the computed wind speed is exactly the `float` value of 32.4. -/
theorem readWindSpeed_scaling (s : Station) (raw : Int) (v m : ℚ)
    (hraw1 : 0 ≤ raw) (hraw2 : raw ≤ 4095)
    (hv1 : 1 / 2 ^ 60 ≤ |v|) (hv2 : |v| ≤ 2 ^ 60)
    (hm1 : 1 / 2 ^ 60 ≤ |m|) (hm2 : |m| ≤ 2 ^ 60) :
    (∃ y : ℚ, (readWindSpeed (setWindCalibration s (.fin v) (.fin m)) raw).2 = .fin y ∧
      |y - (raw : ℚ) / 4095 * m| ≤ 1 / 2 ^ 21 * |(raw : ℚ) / 4095 * m|) ∧
    (readWindSpeed (setWindCalibration s (Flt.round32 (.fin (33 / 10)))
      (Flt.round32 (.fin (324 / 10)))) 4095).2 = Flt.round32 (.fin (324 / 10)) := by
  refine ⟨?_, ?_⟩
  · rcases eq_or_lt_of_le hraw1 with h0 | hpos
    · subst h0
      refine ⟨0, windSpeedOf_zero (setWindCalibration s (.fin v) (.fin m)).config v m
        rfl rfl hv1 hv2 hm1 hm2, ?_⟩
      simp
    · exact windSpeedOf_near (setWindCalibration s (.fin v) (.fin m)).config raw v m
        rfl rfl (by omega) hraw2 hv1 hv2 hm1 hm2
  · exact (windSpeedOf_default_fullScale
      (setWindCalibration s (Flt.round32 (.fin (33 / 10)))
        (Flt.round32 (.fin (324 / 10)))).config
      round32_literal_3_3 round32_literal_32_4).trans round32_literal_32_4.symm

/-- Witness for `readWindSpeed_scaling`: the default calibration (the `float`
values of 3.3 and 32.4) at raw count 100. -/
theorem readWindSpeed_scaling_witness :
    ((0 : Int) ≤ 100 ∧ (100 : Int) ≤ 4095) ∧
    ((1 : ℚ) / 2 ^ 60 ≤ |13841203 / 4194304| ∧ |(13841203 / 4194304 : ℚ)| ≤ 2 ^ 60) ∧
    ((1 : ℚ) / 2 ^ 60 ≤ |4246733 / 131072| ∧ |(4246733 / 131072 : ℚ)| ≤ 2 ^ 60) ∧
    ∃ y : ℚ,
      (readWindSpeed (setWindCalibration construct (.fin (13841203 / 4194304))
        (.fin (4246733 / 131072))) 100).2 = .fin y ∧
      |y - ((100 : Int) : ℚ) / 4095 * (4246733 / 131072)| ≤
        1 / 2 ^ 21 * |((100 : Int) : ℚ) / 4095 * (4246733 / 131072)| :=
  ⟨⟨by decide, by decide⟩,
    ⟨by rw [abs_of_pos] <;> norm_num, by rw [abs_of_pos] <;> norm_num⟩,
    ⟨by rw [abs_of_pos] <;> norm_num, by rw [abs_of_pos] <;> norm_num⟩,
    (readWindSpeed_scaling construct 100 (13841203 / 4194304) (4246733 / 131072)
      (by decide) (by decide)
      (by rw [abs_of_pos] <;> norm_num) (by rw [abs_of_pos] <;> norm_num)
      (by rw [abs_of_pos] <;> norm_num) (by rw [abs_of_pos] <;> norm_num)).1⟩

/-- C8, counterexample. The scaling fails on calibration pairs that
`setWindCalibration` accepts: with reference voltage 0 the speed at raw count
0 is NaN, not 0; with max speed 0 the speeds at counts 0 and 4095 are both 0,
so the speed does not increase; with reference voltage 7 and max speed 31 the
speed at count 4095 is `31 - 2^-19`, not the max speed; and with reference
voltage `2^-100` and max speed `2^100` the speed at count 0 is NaN. -/
theorem readWindSpeed_not_monotone_on_degenerate_pairs :
    (readWindSpeed (setWindCalibration construct (.fin 0) (.fin (4246733 / 131072)))
      0).2 ≠ .fin 0 ∧
    Flt.lt (readWindSpeed (setWindCalibration construct (.fin 1) (.fin 0)) 0).2
      (readWindSpeed (setWindCalibration construct (.fin 1) (.fin 0)) 4095).2 = false ∧
    (readWindSpeed (setWindCalibration construct (.fin 7) (.fin 31)) 4095).2 ≠ .fin 31 ∧
    (readWindSpeed (setWindCalibration construct (.fin (1 / 2 ^ 100)) (.fin (2 ^ 100)))
      0).2 ≠ .fin 0 := by
  have hz : (readWindSpeed (setWindCalibration construct (.fin 0)
      (.fin (4246733 / 131072))) 0).2 = .nan :=
    windSpeedOf_zero_voltage _ 0 _ rfl rfl (by norm_num)
  have hm0 : (readWindSpeed (setWindCalibration construct (.fin 1) (.fin 0)) 0).2 =
      .fin 0 := windSpeedOf_zero_maxSpeed_zero _ rfl rfl
  have hm1 : (readWindSpeed (setWindCalibration construct (.fin 1) (.fin 0)) 4095).2 =
      .fin 0 := windSpeedOf_zero_maxSpeed_fullScale _ rfl rfl
  have h7 : (readWindSpeed (setWindCalibration construct (.fin 7) (.fin 31)) 4095).2 =
      .fin (16252927 / 524288) := windSpeedOf_7_31_fullScale _ rfl rfl
  have ho : (readWindSpeed (setWindCalibration construct (.fin (1 / 2 ^ 100))
      (.fin (2 ^ 100))) 0).2 = .nan := windSpeedOf_overflow _ rfl rfl
  refine ⟨?_, ?_, ?_, ?_⟩
  · rw [hz]
    intro h
    cases h
  · rw [hm0, hm1]
    simp [Flt.lt]
  · rw [h7]
    intro h
    injection h with h
    norm_num at h
  · rw [ho]
    intro h
    cases h

/-- C8, amended. For every calibration pair with a finite reference voltage of
magnitude between `2^-60` and `2^60` and a finite positive max speed between
`2^-60` and `2^60`, the wind speed of `readWindSpeed` on raw counts `0..4095`
is linear in the count up to a relative error of at most `2^-21`:
`speed(raw)` is within that error of `raw / 4095 * maxSpeed`, `speed(0) = 0`,
`speed(4095)` is within that error of `maxSpeed`, and `speed(a) < speed(b)`
for all raw counts `0 <= a < b <= 4095`. -/
theorem readWindSpeed_linear_monotone (s : Station) (v m : ℚ)
    (hv1 : 1 / 2 ^ 60 ≤ |v|) (hv2 : |v| ≤ 2 ^ 60)
    (hm1 : 1 / 2 ^ 60 ≤ m) (hm2 : m ≤ 2 ^ 60) :
    (∀ raw : Int, 0 ≤ raw → raw ≤ 4095 →
      ∃ y : ℚ, (readWindSpeed (setWindCalibration s (.fin v) (.fin m)) raw).2 = .fin y ∧
        |y - (raw : ℚ) / 4095 * m| ≤ 1 / 2 ^ 21 * ((raw : ℚ) / 4095 * m)) ∧
    (readWindSpeed (setWindCalibration s (.fin v) (.fin m)) 0).2 = .fin 0 ∧
    (∃ y : ℚ, (readWindSpeed (setWindCalibration s (.fin v) (.fin m)) 4095).2 = .fin y ∧
      |y - m| ≤ 1 / 2 ^ 21 * m) ∧
    (∀ a b : Int, 0 ≤ a → a < b → b ≤ 4095 →
      Flt.lt (readWindSpeed (setWindCalibration s (.fin v) (.fin m)) a).2
        (readWindSpeed (setWindCalibration s (.fin v) (.fin m)) b).2 = true) := by
  have hmpos : 0 < m := lt_of_lt_of_le (by norm_num) hm1
  have hmabs : |m| = m := abs_of_pos hmpos
  have hzero : (readWindSpeed (setWindCalibration s (.fin v) (.fin m)) 0).2 = .fin 0 :=
    windSpeedOf_zero (setWindCalibration s (.fin v) (.fin m)).config v m rfl rfl hv1 hv2
      (by rwa [hmabs]) (by rwa [hmabs])
  have hnear : ∀ raw : Int, 1 ≤ raw → raw ≤ 4095 →
      ∃ y : ℚ, (readWindSpeed (setWindCalibration s (.fin v) (.fin m)) raw).2 = .fin y ∧
        |y - (raw : ℚ) / 4095 * m| ≤ 1 / 2 ^ 21 * ((raw : ℚ) / 4095 * m) := by
    intro raw h1 h2
    obtain ⟨y, hy, hb⟩ := windSpeedOf_near (setWindCalibration s (.fin v) (.fin m)).config
      raw v m rfl rfl h1 h2 hv1 hv2 (by rwa [hmabs]) (by rwa [hmabs])
    have hr : (0 : ℚ) < raw := by exact_mod_cast (by omega : (0 : Int) < raw)
    rw [abs_of_pos (by positivity : (0 : ℚ) < (raw : ℚ) / 4095 * m)] at hb
    exact ⟨y, hy, hb⟩
  refine ⟨?_, hzero, ?_, ?_⟩
  · intro raw h0 h2
    rcases eq_or_lt_of_le h0 with h | h
    · subst h
      exact ⟨0, hzero, by simp⟩
    · exact hnear raw (by omega) h2
  · obtain ⟨y, hy, hb⟩ := hnear 4095 (by norm_num) (by norm_num)
    refine ⟨y, hy, ?_⟩
    have : ((4095 : Int) : ℚ) / 4095 * m = m := by
      push_cast
      field_simp
    rwa [this] at hb
  · intro a b ha hab hb
    obtain ⟨yb, hyb, nb⟩ := hnear b (by omega) hb
    have hbq : (0 : ℚ) < b := by exact_mod_cast (by omega : (0 : Int) < b)
    have hbpos : (0 : ℚ) < (b : ℚ) / 4095 * m := by positivity
    obtain ⟨lb, -⟩ := near_interval _ _ _ hbpos.le
      (by rwa [abs_of_pos hbpos])
    rcases eq_or_lt_of_le ha with h | h
    · subst h
      rw [hzero, hyb]
      simp only [Flt.lt, decide_eq_true_eq]
      have : (0 : ℚ) < (1 - 1 / 2 ^ 21) * ((b : ℚ) / 4095 * m) :=
        mul_pos (by norm_num) hbpos
      linarith
    · obtain ⟨ya, hya, na⟩ := hnear a (by omega) (by omega)
      have haq : (0 : ℚ) < a := by exact_mod_cast h
      have hapos : (0 : ℚ) < (a : ℚ) / 4095 * m := by positivity
      obtain ⟨-, ua⟩ := near_interval _ _ _ hapos.le
        (by rwa [abs_of_pos hapos])
      rw [hya, hyb]
      simp only [Flt.lt, decide_eq_true_eq]
      have hab1 : (a : ℚ) + 1 ≤ b := by exact_mod_cast (by omega : a + 1 ≤ b)
      have ha4 : (a : ℚ) ≤ 4095 := by exact_mod_cast (by omega : a ≤ 4095)
      have ht : (0 : ℚ) < m / 4095 := by positivity
      have key : (1 + 1 / 2 ^ 21) * (a : ℚ) < (1 - 1 / 2 ^ 21) * b := by
        have : (1 - (1 : ℚ) / 2 ^ 21) * ((a : ℚ) + 1) ≤ (1 - 1 / 2 ^ 21) * b :=
          mul_le_mul_of_nonneg_left hab1 (by norm_num)
        have h2 : (1 + (1 : ℚ) / 2 ^ 21) * (a : ℚ) < (1 - 1 / 2 ^ 21) * ((a : ℚ) + 1) := by
          norm_num
          linarith
        linarith
      have e1 : (1 + (1 : ℚ) / 2 ^ 21) * ((a : ℚ) / 4095 * m) =
          (1 + 1 / 2 ^ 21) * (a : ℚ) * (m / 4095) := by ring
      have e2 : (1 - (1 : ℚ) / 2 ^ 21) * ((b : ℚ) / 4095 * m) =
          (1 - 1 / 2 ^ 21) * (b : ℚ) * (m / 4095) := by ring
      have := mul_lt_mul_of_pos_right key ht
      rw [e1] at ua
      rw [e2] at lb
      linarith

/-- Witness for `readWindSpeed_linear_monotone`: the default calibration (the
`float` values of 3.3 and 32.4) at counts 100 and 200. -/
theorem readWindSpeed_linear_monotone_witness :
    ((1 : ℚ) / 2 ^ 60 ≤ |13841203 / 4194304| ∧ |(13841203 / 4194304 : ℚ)| ≤ 2 ^ 60) ∧
    ((1 : ℚ) / 2 ^ 60 ≤ 4246733 / 131072 ∧ (4246733 / 131072 : ℚ) ≤ 2 ^ 60) ∧
    Flt.lt
      (readWindSpeed (setWindCalibration construct (.fin (13841203 / 4194304))
        (.fin (4246733 / 131072))) 100).2
      (readWindSpeed (setWindCalibration construct (.fin (13841203 / 4194304))
        (.fin (4246733 / 131072))) 200).2 = true :=
  ⟨⟨by rw [abs_of_pos] <;> norm_num, by rw [abs_of_pos] <;> norm_num⟩,
    ⟨by norm_num, by norm_num⟩,
    (readWindSpeed_linear_monotone construct (13841203 / 4194304) (4246733 / 131072)
      (by rw [abs_of_pos] <;> norm_num) (by rw [abs_of_pos] <;> norm_num)
      (by norm_num) (by norm_num)).2.2.2 100 200 (by decide) (by decide) (by decide)⟩

/-- C10. The tick `loop()` is a no-op on a station that is not activated. On an
activated station, when the elapsed time `currentTime - lastReading` (wrapping
unsigned arithmetic) has reached `readingInterval`, the tick is one reading
cycle followed by `lastReading := currentTime`, the LED refresh and the
failure check; when the elapsed time is below the interval the tick is only
the LED refresh and the failure check: it runs no cycle and leaves
`lastReading`, the failure counter and `lastValidReading` unchanged. -/
theorem loop_tick_contract (s : Station) (e : TickEnv) :
    (s.initialized = false → loop s e = (s, false)) ∧
    (s.initialized = true →
      ulongSub e.currentTime s.lastReading ≥ s.config.readingInterval →
        loop s e =
          finishTick { (forceReading s e.cycle).1 with lastReading := e.currentTime } e ∧
        (loop s e).1.lastReading = e.currentTime ∧
        (loop s e).1.consecutiveFailures = (forceReading s e.cycle).1.consecutiveFailures ∧
        (loop s e).1.lastValidReading = (forceReading s e.cycle).1.lastValidReading ∧
        (loop s e).1.log.filter Event.isCycleEvent =
          (forceReading s e.cycle).1.log.filter Event.isCycleEvent) ∧
    (s.initialized = true →
      ulongSub e.currentTime s.lastReading < s.config.readingInterval →
        loop s e = finishTick s e ∧
        (loop s e).1.lastReading = s.lastReading ∧
        (loop s e).1.consecutiveFailures = s.consecutiveFailures ∧
        (loop s e).1.lastValidReading = s.lastValidReading ∧
        (loop s e).1.log.filter Event.isCycleEvent = s.log.filter Event.isCycleEvent) := by
  refine ⟨loop_not_initialized s e, ?_, ?_⟩
  · intro h hd
    rw [loop_due s e h hd]
    refine ⟨rfl, ?_, ?_, ?_, ?_⟩
    · simp
    · simp
    · simp
    · rw [finishTick_log]
  · intro h hd
    rw [loop_not_due s e h hd]
    refine ⟨rfl, ?_, ?_, ?_, ?_⟩
    · simp
    · simp
    · simp
    · rw [finishTick_log]

/-- Witness for `loop_tick_contract`: the first hourly tick of the activated
station is due and moves the baseline to the tick's clock value. -/
theorem loop_tick_contract_witness :
    activatedStation.initialized = true ∧
    ulongSub (sensorFailTick 1).currentTime activatedStation.lastReading ≥
      activatedStation.config.readingInterval ∧
    (loop activatedStation (sensorFailTick 1)).1.lastReading = 3600000 :=
  ⟨by rfl, by decide,
    ((loop_tick_contract activatedStation (sensorFailTick 1)).2.1 (by rfl) (by decide)).2.1⟩

/-- C1, counterexample. On an activated station whose counter is `INT_MAX`, a
cycle that ends in an invalid sensor reading leaves the counter at `INT_MIN`,
not at its previous value plus 1. -/
theorem forceReading_counter_wraps_at_int_max :
    saturatedStation.initialized = true ∧
    cycleOutcome saturatedStation sensorFailCycle = .sensorInvalid ∧
    (forceReading saturatedStation sensorFailCycle).1.consecutiveFailures = -2147483648 ∧
    (forceReading saturatedStation sensorFailCycle).1.consecutiveFailures ≠
      saturatedStation.consecutiveFailures + 1 := by
  have hi : saturatedStation.initialized = true := by rfl
  have ho := cycleOutcome_sensorFailCycle saturatedStation
  have hc : (forceReading saturatedStation sensorFailCycle).1.consecutiveFailures =
      -2147483648 := by
    rw [((forceReading_cases saturatedStation sensorFailCycle hi).2.1 ho).2.1]
    decide
  refine ⟨hi, ho, hc, ?_⟩
  rw [hc]
  decide

/-- C1, amended. The failure counter is 0 in a newly constructed station. For
every activated state whose counter is an `int` below `INT_MAX` and every
outcome of one `forceReading` cycle: when the reconnection fails, when the
sensor reading is invalid, or when the submission fails, the cycle returns
failure and the counter is its previous value plus 1; when the submission
succeeds (whatever the counter was) the cycle returns success and the counter
is 0. Hence the counter sequence of a run of cycles that cannot reach
`INT_MAX` is the one the spec's rule gives, and four submit failures followed
by one success from counter 0 give 1, 2, 3, 4, 0. -/
theorem failure_counter_contract :
    construct.consecutiveFailures = 0 ∧
    (∀ (s : Station) (e : CycleEnv), s.initialized = true →
      INT_MIN ≤ s.consecutiveFailures → s.consecutiveFailures < INT_MAX →
      (cycleOutcome s e = .connectFailed →
        (forceReading s e).2 = false ∧
        (forceReading s e).1.consecutiveFailures = s.consecutiveFailures + 1) ∧
      (cycleOutcome s e = .sensorInvalid →
        (forceReading s e).2 = false ∧
        (forceReading s e).1.consecutiveFailures = s.consecutiveFailures + 1) ∧
      (cycleOutcome s e = .submitFailed →
        (forceReading s e).2 = false ∧
        (forceReading s e).1.consecutiveFailures = s.consecutiveFailures + 1)) ∧
    (∀ (s : Station) (e : CycleEnv), s.initialized = true →
      cycleOutcome s e = .submitted →
        (forceReading s e).2 = true ∧
        (forceReading s e).1.consecutiveFailures = 0) ∧
    (∀ (s : Station) (e : CycleEnv),
      (cycleOutcome s e = .connectFailed ↔ e.wifiUp = false ∧ e.reconnectOk = false) ∧
      (cycleOutcome s e = .sensorInvalid ↔
        (e.wifiUp = true ∨ e.reconnectOk = true) ∧
        (readSensors s e.sensors).2.isValid = false) ∧
      (cycleOutcome s e = .submitFailed ↔
        (e.wifiUp = true ∨ e.reconnectOk = true) ∧
        (readSensors s e.sensors).2.isValid = true ∧
        (submitReading s (readSensors s e.sensors).2 e.wifiUpAtSubmit
          e.httpResponseCode).2 = false) ∧
      (cycleOutcome s e = .submitted ↔
        (e.wifiUp = true ∨ e.reconnectOk = true) ∧
        (readSensors s e.sensors).2.isValid = true ∧
        (submitReading s (readSensors s e.sensors).2 e.wifiUpAtSubmit
          e.httpResponseCode).2 = true)) ∧
    (∀ (s : Station) (es : List CycleEnv), s.initialized = true →
      0 ≤ s.consecutiveFailures → s.consecutiveFailures + es.length ≤ INT_MAX →
      cycleCounters s es = specCounters s.consecutiveFailures (cycleOutcomes s es)) ∧
    (∀ (s : Station) (es : List CycleEnv), s.initialized = true →
      s.consecutiveFailures = 0 →
      cycleOutcomes s es =
        [.submitFailed, .submitFailed, .submitFailed, .submitFailed, .submitted] →
      cycleCounters s es = [1, 2, 3, 4, 0]) := by
  refine ⟨rfl, ?_, ?_, cycleOutcome_iff,
    fun s es hi h0 hm => cycleCounters_eq_specCounters es s hi h0 hm, ?_⟩
  · intro s e hi hlo hhi
    obtain ⟨h1, h2, h3, -⟩ := forceReading_cases s e hi
    have hinc := intIncrement_of_lt s.consecutiveFailures hlo hhi
    rw [hinc] at h1 h2 h3
    exact ⟨fun h => ⟨(h1 h).1, (h1 h).2.1⟩, fun h => ⟨(h2 h).1, (h2 h).2.1⟩,
      fun h => ⟨(h3 h).1, (h3 h).2.1⟩⟩
  · intro s e hi ho
    obtain ⟨-, -, -, h4⟩ := forceReading_cases s e hi
    exact ⟨(h4 ho).1, (h4 ho).2.1⟩
  · intro s es hi h0 ho
    have hl : es.length = 5 := by
      have := congrArg List.length ho
      rcases es with _ | ⟨e1, _ | ⟨e2, _ | ⟨e3, _ | ⟨e4, _ | ⟨e5, _ | ⟨e6, es⟩⟩⟩⟩⟩⟩ <;>
        simp [cycleOutcomes] at this ⊢
    rw [cycleCounters_eq_specCounters es s hi (by omega)
      (by rw [h0, hl]; decide), ho, h0]
    rfl

/-- Witness for `failure_counter_contract`: on the activated station, four
cycles answered with HTTP 500 and one answered with HTTP 200. -/
theorem failure_counter_contract_witness :
    cycleCounters activatedStation
      [submitFailCycle, submitFailCycle, submitFailCycle, submitFailCycle, submitOkCycle] =
      [1, 2, 3, 4, 0] :=
  failure_counter_contract.2.2.2.2.2 activatedStation _ (by rfl) (by rfl) (by
    simp only [cycleOutcomes]
    rw [cycleOutcome_submitFailCycle _ (by rfl) (by rfl),
      cycleOutcome_submitFailCycle _ (by (try simp only [forceReading_config]); rfl) (by (try simp only [forceReading_config]); rfl),
      cycleOutcome_submitFailCycle _ (by (try simp only [forceReading_config]); rfl) (by (try simp only [forceReading_config]); rfl),
      cycleOutcome_submitFailCycle _ (by (try simp only [forceReading_config]); rfl) (by (try simp only [forceReading_config]); rfl),
      cycleOutcome_submitOkCycle _ (by (try simp only [forceReading_config]); rfl) (by (try simp only [forceReading_config]); rfl)])

/-- C2. For a station driven from an activated state with failure counter 0 by
`loop()` ticks only: a tick calls `restart()` if and only if the counter is 5
after that tick, no tick restarts while the counter is below 5, the counter
never exceeds 5, and before the tick that restarts every tick leaves the
counter below 5 without restarting. Five consecutive due ticks whose cycles
end in an invalid sensor reading restart on the fifth tick and on none of the
first four. -/
theorem restart_exactly_at_five (s0 : Station) (es : List TickEnv)
    (hi : s0.initialized = true) (h0 : s0.consecutiveFailures = 0) :
    (∀ p ∈ tickTrace s0 es,
      (p.2 = true ↔ p.1.consecutiveFailures = 5) ∧
      (p.1.consecutiveFailures < 5 → p.2 = false) ∧
      p.1.consecutiveFailures ≤ 5) ∧
    (∀ p ∈ (tickTrace s0 es).dropLast, p.2 = false ∧ p.1.consecutiveFailures < 5) ∧
    (es.length = 5 → allDueSensorFailures s0 es = true →
      (tickTrace s0 es).map Prod.snd = [false, false, false, false, true]) := by
  obtain ⟨h1, h2⟩ := tickTrace_invariant es s0 hi (by omega) (by omega)
  refine ⟨?_, h2, ?_⟩
  · intro p hp
    obtain ⟨a, _, c⟩ := h1 p hp
    refine ⟨a, ?_, c⟩
    intro hlt
    cases hb : p.2 with
    | false => rfl
    | true =>
      have := a.1 hb
      omega
  · intro hl ha
    obtain ⟨e1, e2, e3, e4, e5, rfl⟩ : ∃ e1 e2 e3 e4 e5, es = [e1, e2, e3, e4, e5] := by
      rcases es with _ | ⟨e1, _ | ⟨e2, _ | ⟨e3, _ | ⟨e4, _ | ⟨e5, _ | ⟨e6, es⟩⟩⟩⟩⟩⟩
      all_goals first
        | exact ⟨_, _, _, _, _, rfl⟩
        | (simp only [List.length_cons, List.length_nil] at hl; omega)
    exact tickTrace_five_sensor_failures s0 e1 e2 e3 e4 e5 hi h0 ha

/-- Witness for `restart_exactly_at_five`: the activated station, five hourly
ticks on which the DHT driver returns NaN. -/
theorem restart_exactly_at_five_witness :
    activatedStation.initialized = true ∧ activatedStation.consecutiveFailures = 0 ∧
    (tickTrace activatedStation
      [sensorFailTick 1, sensorFailTick 2, sensorFailTick 3, sensorFailTick 4,
        sensorFailTick 5]).map Prod.snd = [false, false, false, false, true] :=
  ⟨by rfl, by rfl,
    (restart_exactly_at_five activatedStation
      [sensorFailTick 1, sensorFailTick 2, sensorFailTick 3, sensorFailTick 4,
        sensorFailTick 5] (by rfl) (by rfl)).2.2 (by rfl) (by decide)⟩

/-- C6. A reading cycle overwrites `lastValidReading` only with a reading that
`readSensors` marked valid, hence one that passed all three range checks, and
then it becomes exactly that reading, whether the submission then fails or
succeeds; a cycle that aborts on a connection failure or on an invalid sensor
reading leaves it unchanged. In every state reachable from construction by
public calls, `lastValidReading` is either the constructor's value (whose
`isValid` is false) or a valid reading with temperature in `[-40, 140]`,
humidity in `[0, 100]` and wind speed in `[0, 200]`. -/
theorem lastValidReading_contract :
    (∀ (s : Station) (e : CycleEnv),
      (forceReading s e).1.lastValidReading = s.lastValidReading ∨
      ((readSensors s e.sensors).2.isValid = true ∧
        isValidTemperature (readSensors s e.sensors).2.temperature = true ∧
        isValidHumidity (readSensors s e.sensors).2.humidity = true ∧
        isValidWindSpeed (readSensors s e.sensors).2.windSpeed = true ∧
        (forceReading s e).1.lastValidReading = (readSensors s e.sensors).2)) ∧
    (∀ (s : Station) (e : CycleEnv), s.initialized = true →
      (cycleOutcome s e = .connectFailed ∨ cycleOutcome s e = .sensorInvalid) →
      (forceReading s e).1.lastValidReading = s.lastValidReading) ∧
    (∀ (s : Station) (e : CycleEnv), s.initialized = true →
      (cycleOutcome s e = .submitFailed ∨ cycleOutcome s e = .submitted) →
      (forceReading s e).1.lastValidReading = (readSensors s e.sensors).2) ∧
    construct.lastValidReading.isValid = false ∧
    (∀ s : Station, Reachable s →
      s.lastValidReading = construct.lastValidReading ∨
      (s.lastValidReading.isValid = true ∧
        ∃ t h w : ℚ, s.lastValidReading.temperature = .fin t ∧
          s.lastValidReading.humidity = .fin h ∧ s.lastValidReading.windSpeed = .fin w ∧
          -40 ≤ t ∧ t ≤ 140 ∧ 0 ≤ h ∧ h ≤ 100 ∧ 0 ≤ w ∧ w ≤ 200)) := by
  refine ⟨?_, ?_, ?_, rfl, ?_⟩
  · intro s e
    rcases forceReading_lastValidReading s e with hf | ⟨hv, hf⟩
    · exact Or.inl hf
    · have := (readSensors_isValid_spec s e.sensors).1.1 hv
      exact Or.inr ⟨hv, this.2.2.1, this.2.2.2.1, this.2.2.2.2, hf⟩
  · intro s e hi ho
    obtain ⟨h1, h2, -, -⟩ := forceReading_cases s e hi
    rcases ho with ho | ho
    · exact (h1 ho).2.2.1
    · exact (h2 ho).2.2.1
  · intro s e hi ho
    obtain ⟨-, -, h3, h4⟩ := forceReading_cases s e hi
    rw [readSensors_snd]
    rcases ho with ho | ho
    · exact (h3 ho).2.2.1
    · exact (h4 ho).2.2.1
  · rintro s ⟨calls, rfl⟩
    rcases lastValidReading_invariant calls construct (Or.inl rfl) with h | ⟨hv, hr⟩
    · exact Or.inl h
    · exact Or.inr ⟨hv, valid_reading_in_range _ hr⟩

/-- Witness for `lastValidReading_contract`: after activation and one cycle
answered with HTTP 500 the retained reading is 68 F, 50 %, 32.4 mph. -/
theorem lastValidReading_contract_witness :
    (runCalls construct
      [.setWiFiCredentials (some "school-wifi") (some "wifi-secret"),
        .setStationCredentials 7 (some "passkey"), .begin goodBeginEnv,
        .forceReading submitFailCycle]).lastValidReading = construct.lastValidReading ∨
    ((runCalls construct
      [.setWiFiCredentials (some "school-wifi") (some "wifi-secret"),
        .setStationCredentials 7 (some "passkey"), .begin goodBeginEnv,
        .forceReading submitFailCycle]).lastValidReading.isValid = true ∧
      ∃ t h w : ℚ,
        (runCalls construct
          [.setWiFiCredentials (some "school-wifi") (some "wifi-secret"),
            .setStationCredentials 7 (some "passkey"), .begin goodBeginEnv,
            .forceReading submitFailCycle]).lastValidReading.temperature = .fin t ∧
        (runCalls construct
          [.setWiFiCredentials (some "school-wifi") (some "wifi-secret"),
            .setStationCredentials 7 (some "passkey"), .begin goodBeginEnv,
            .forceReading submitFailCycle]).lastValidReading.humidity = .fin h ∧
        (runCalls construct
          [.setWiFiCredentials (some "school-wifi") (some "wifi-secret"),
            .setStationCredentials 7 (some "passkey"), .begin goodBeginEnv,
            .forceReading submitFailCycle]).lastValidReading.windSpeed = .fin w ∧
        -40 ≤ t ∧ t ≤ 140 ∧ 0 ≤ h ∧ h ≤ 100 ∧ 0 ≤ w ∧ w ≤ 200) :=
  lastValidReading_contract.2.2.2.2 _ ⟨_, rfl⟩

/-- C11. `begin()` fails fast on missing credentials: when the WiFi password or
the passkey is not set it returns false and the station is unchanged, log
included, so no hardware bring-up and no connection attempt happen. It returns
true exactly when the credentials are present, `initializeHardware` succeeded
and the WiFi wait ended with a link, and then the status is idle and the
station is activated. When the credentials are present, the hardware is up
and the WiFi connection fails, it returns false, the status is
`WS_STATUS_WIFI_FAILED` and the activated flag is unchanged; whenever it
returns false the activated flag is unchanged, so a station that was not
activated stays so. -/
theorem begin_contract (s : Station) (e : BeginEnv) :
    (s.config.wifiPassword = none ∨ s.config.passkey = none → begin s e = (s, false)) ∧
    ((begin s e).2 = true ↔
      s.config.wifiSSID ≠ none ∧ s.config.wifiPassword ≠ none ∧
      s.config.stationID ≠ 0 ∧ s.config.passkey ≠ none ∧
      (initializeHardware s e.testTemp).2 = true ∧ e.wifiOk = true) ∧
    ((begin s e).2 = true →
      (begin s e).1.currentStatus = WS_STATUS_IDLE ∧ (begin s e).1.initialized = true) ∧
    (s.config.wifiSSID ≠ none → s.config.wifiPassword ≠ none →
      s.config.stationID ≠ 0 → s.config.passkey ≠ none →
      (initializeHardware s e.testTemp).2 = true → e.wifiOk = false →
        (begin s e).2 = false ∧ (begin s e).1.initialized = s.initialized ∧
        (begin s e).1.currentStatus = WS_STATUS_WIFI_FAILED) ∧
    ((begin s e).2 = false → (begin s e).1.initialized = s.initialized) ∧
    (s.initialized = false → (begin s e).2 = false → (begin s e).1.initialized = false) := by
  have hfalse : (begin s e).2 = false → (begin s e).1.initialized = s.initialized := by
    by_cases hg : s.config.wifiSSID = none ∨ s.config.wifiPassword = none ∨
        s.config.stationID = 0 ∨ s.config.passkey = none
    · intro _
      rw [begin_guard s e hg]
    · simp only [not_or] at hg
      obtain ⟨h1, h2, h3, h4⟩ := hg
      rw [begin_run s e h1 h2 h3 h4]
      cases ht : e.testTemp.isnan <;> cases hw : e.wifiOk <;>
        simp [initializeHardware_initialized]
  refine ⟨?_, ?_, ?_, ?_, hfalse, ?_⟩
  · rintro (h | h)
    · exact begin_guard s e (Or.inr (Or.inl h))
    · exact begin_guard s e (Or.inr (Or.inr (Or.inr h)))
  · by_cases hg : s.config.wifiSSID = none ∨ s.config.wifiPassword = none ∨
        s.config.stationID = 0 ∨ s.config.passkey = none
    · rw [begin_guard s e hg]
      constructor
      · intro h
        cases h
      · rintro ⟨h1, h2, h3, h4, -, -⟩
        rcases hg with h | h | h | h
        · exact absurd h h1
        · exact absurd h h2
        · exact absurd h h3
        · exact absurd h h4
    · simp only [not_or] at hg
      obtain ⟨h1, h2, h3, h4⟩ := hg
      rw [begin_run s e h1 h2 h3 h4, initializeHardware_snd]
      cases ht : e.testTemp.isnan <;> cases hw : e.wifiOk <;> simp [h1, h2, h3, h4]
  · by_cases hg : s.config.wifiSSID = none ∨ s.config.wifiPassword = none ∨
        s.config.stationID = 0 ∨ s.config.passkey = none
    · rw [begin_guard s e hg]
      intro h
      cases h
    · simp only [not_or] at hg
      obtain ⟨h1, h2, h3, h4⟩ := hg
      rw [begin_run s e h1 h2 h3 h4]
      cases ht : e.testTemp.isnan <;> cases hw : e.wifiOk <;> simp
  · intro h1 h2 h3 h4 hh hw
    rw [initializeHardware_snd] at hh
    have ht : e.testTemp.isnan = false := by simpa using hh
    rw [begin_run s e h1 h2 h3 h4]
    simp [ht, hw, initializeHardware_initialized]
  · intro hi hb
    rw [hfalse hb, hi]

/-- Witness for `begin_contract`: the freshly constructed station has no
credentials and is left untouched; the configured station is activated when
the self-test and the WiFi wait succeed; and it stays un-activated with status
`WS_STATUS_WIFI_FAILED` when the WiFi wait fails. -/
theorem begin_contract_witness :
    begin construct goodBeginEnv = (construct, false) ∧
    ((begin configuredStation goodBeginEnv).1.currentStatus = WS_STATUS_IDLE ∧
      (begin configuredStation goodBeginEnv).1.initialized = true) ∧
    ((begin configuredStation wifiDownBeginEnv).2 = false ∧
      (begin configuredStation wifiDownBeginEnv).1.initialized =
        configuredStation.initialized ∧
      (begin configuredStation wifiDownBeginEnv).1.currentStatus = WS_STATUS_WIFI_FAILED) :=
  ⟨(begin_contract construct goodBeginEnv).1 (Or.inl rfl),
    (begin_contract configuredStation goodBeginEnv).2.2.1 (by rfl),
    (begin_contract configuredStation wifiDownBeginEnv).2.2.2.1 (by decide) (by decide)
      (by decide) (by decide) (by rfl) (by rfl)⟩

end CijeWeather
